import Mathlib

/-!
Shallow embedding of the libicsneo-rs wrapper layer (`src/src/safe.rs` and
`src/crates/libicsneo-rs/src/icsneo.rs`).

The repository is a foreign-function shim: every public wrapper calls into
the opaque native library `libicsneo` and translates its responses.  We
embed each wrapper as a pure Lean function of an explicit *oracle* that
supplies the native library's responses for the calls the wrapper makes
(boolean success flags, counts written through out-pointers, the contents
of the process-global last-error slot at each read, buffer contents).
Each wrapper returns a pair: its Rust return value, and the *trace* of
native invocations it performed, in order, recording for every invocation
which native function was called, whether the buffer argument was a null
pointer or an allocation of a given length, and the forwarded scalar
arguments.  Temporal claims (probe-then-fill, last-error reads, no
re-invocation) are statements about this trace.
-/

set_option autoImplicit false

namespace Libicsneo

/-- Model of `neodevice_t` (fields of the C struct; the opaque `device`
pointer is modelled as a numeric address). -/
structure NeoDevice where
  devicePtr : Nat
  handle : Int
  serial : List Int
  type_ : Nat
deriving DecidableEq, Repr

/-- Mirror of `NeoDevice::new()` in `safe.rs`: all fields zeroed, `serial`
a 7-element zero array. -/
def NeoDevice.new : NeoDevice :=
  { devicePtr := 0, handle := 0, serial := List.replicate 7 0, type_ := 0 }

/-- Mirror of `neodevice_t::default()` used by `icsneo.rs`; the bindgen
`Default` derive zero-initializes every field, so it coincides with
`NeoDevice.new`. -/
def NeoDevice.default : NeoDevice := NeoDevice.new

/-- Model of `neoevent_t`: the `description` C-string pointer is modelled
by the pointed-to text. -/
structure NeoEvent where
  description : String
  timestamp : Nat
  eventNumber : Nat
  severity : Nat
  serial : List Int
deriving DecidableEq, Repr

/-- Mirror of `NeoEvent::new()` in `safe.rs`: all fields zeroed. -/
def NeoEvent.new : NeoEvent :=
  { description := "", timestamp := 0, eventNumber := 0, severity := 0,
    serial := List.replicate 7 0 }

/-- Model of `neomessage_t` (reserved padding modelled as byte lists). -/
structure NeoMessage where
  reserved1 : List Nat
  reserved2 : List Nat
  reserved3 : List Nat
  reservedTimestamp : Nat
  timestamp : Nat
  messageType : Nat
deriving DecidableEq, Repr

/-- Mirror of `NeoMessage::new()` in `safe.rs`: all fields zeroed. -/
def NeoMessage.new : NeoMessage :=
  { reserved1 := List.replicate 16 0, reserved2 := List.replicate 26 0,
    reserved3 := List.replicate 12 0, reservedTimestamp := 0,
    timestamp := 0, messageType := 0 }

/-- Model of `neoversion_t`: C-string pointers modelled by their text. -/
structure NeoVersion where
  major : Nat
  minor : Nat
  patch : Nat
  metadata : String
  buildBranch : String
  buildTag : String
  reserved : List Int
deriving DecidableEq, Repr

/-- Mirror of the `Error` enum of `safe.rs` (four variants). -/
inductive Error where
  | NoDevicesFound
  | ErrorOccurred (e : NeoEvent)
  | CriticalError (s : String)
  | DeviceInvalid
deriving DecidableEq, Repr

/-- Names of the native `icsneo_*` functions invoked by the wrappers. -/
inductive NFun where
  | findAllDevices
  | freeUnconnectedDevices
  | serialNumToString
  | serialStringToNum
  | getLastError
  | isValidNeoDevice
  | openDevice
  | closeDevice
  | isOpen
  | goOnline
  | goOffline
  | isOnline
  | enableMessagePolling
  | disableMessagePolling
  | isMessagePollingEnabled
  | getMessages
  | getPollingMessageLimit
  | setPollingMessageLimit
  | transmit
  | transmitMessages
  | describeDevice
  | getNetworkByNumber
  | getProductName
  | getProductNameForType
  | getVersion
  | getBaudrate
  | setBaudrate
  | getFDBaudrate
  | setFDBaudrate
  | setWriteBlocks
  | getEvents
  | getDeviceEvents
  | discardAllEvents
  | discardDeviceEvents
  | setEventLimit
  | getEventLimit
  | getSupportedDevices
  | getTimestampResolution
  | getDigitalIO
  | setDigitalIO
  | isTerminationSupportedFor
  | canTerminationBeEnabledFor
  | isTerminationEnabledFor
  | setTerminationFor
deriving DecidableEq, Repr

/-- Buffer argument of a native invocation: the function has no buffer
parameter, the buffer pointer was null (length probe), or an allocation of
the given element count was passed. -/
inductive BufArg where
  | noBuf
  | nullPtr
  | alloc (len : Nat)
deriving DecidableEq, Repr

/-- Scalar argument forwarded to a native invocation. -/
inductive Arg where
  | dev (d : NeoDevice)
  | nat (n : Nat)
  | int (i : Int)
  | bool (b : Bool)
  | str (s : String)
  | msg (m : NeoMessage)
deriving DecidableEq, Repr

/-- One native invocation as it appears in a wrapper's call trace. -/
structure NCall where
  name : NFun
  buf : BufArg
  args : List Arg
deriving DecidableEq, Repr

/-- Trace entry for a read of the process-global last-error slot
(`icsneo_getLastError`). -/
def gleCall : NCall := { name := NFun.getLastError, buf := BufArg.noBuf, args := [] }

/-- Number of invocations of native function `f` in a trace. -/
def callCount (f : NFun) : List NCall → Nat
  | [] => 0
  | c :: tr => (if c.name = f then 1 else 0) + callCount f tr

/-- Buffer arguments of the invocations of `f`, in call order. -/
def bufsOf (f : NFun) (tr : List NCall) : List BufArg :=
  (tr.filter (fun c => decide (c.name = f))).map (fun c => c.buf)

/-- Check that every native function is invoked at most twice in the trace
(checking the names that occur covers all names: an absent name has count
zero). -/
def atMostTwiceB (tr : List NCall) : Bool :=
  tr.all (fun c => decide (callCount c.name tr ≤ 2))

/-- Check that every last-error read in the trace immediately follows some
other native invocation (the boolean parameter records whether the
previous entry was a non-`getLastError` invocation). -/
def glePlacedFrom : Bool → List NCall → Bool
  | _, [] => true
  | prevIsNative, c :: tr =>
    if c.name = NFun.getLastError then
      prevIsNative && glePlacedFrom false tr
    else
      glePlacedFrom true tr

/-- Check that no last-error read opens the trace and every one of them
immediately follows a native call. -/
def glePlaced (tr : List NCall) : Bool := glePlacedFrom false tr

/-- Discipline of the last-error reads in a wrapper trace: exactly `n`
reads, each immediately after a native call. -/
def gleDiscipline (tr : List NCall) (n : Nat) : Prop :=
  callCount NFun.getLastError tr = n ∧ glePlaced tr = true

/-- Check the length-probe template shape: the trace opens with a
null-buffer invocation of `f`, and every later invocation of `f` passes an
allocated buffer. -/
def isProbeShape (f : NFun) : List NCall → Bool
  | [] => false
  | c :: rest =>
    decide (c.name = f) && decide (c.buf = BufArg.nullPtr) &&
      rest.all (fun c2 =>
        !(decide (c2.name = f)) ||
          (match c2.buf with
           | BufArg.alloc _ => true
           | _ => false))

/-- Check the call-check-map template shape: one buffer-less invocation of
`f`, followed by nothing (success) or by exactly one last-error read
(failure). -/
def isCallCheckShape (f : NFun) : List NCall → Bool
  | [c] => decide (c.name = f) && decide (c.buf = BufArg.noBuf)
  | [c, c2] =>
    decide (c.name = f) && decide (c.buf = BufArg.noBuf) &&
      decide (c2.name = NFun.getLastError)
  | _ => false

/-- Check the pass-through template shape: exactly one buffer-less
invocation of `f` and nothing else. -/
def isPassThroughShape (f : NFun) : List NCall → Bool
  | [c] => decide (c.name = f) && decide (c.buf = BufArg.noBuf)
  | _ => false

/-- Result of decoding the C string the native call wrote into the buffer
(`CStr::from_ptr(..).to_str()`): a string, or a UTF-8 error rendering. -/
inductive Decoded where
  | ok (s : String)
  | invalid (e : String)
deriving DecidableEq, Repr

/-- Native responses consumed by a call-check-map wrapper: the boolean
return of its single native call, and the last-error slot contents at the
single read the wrapper may perform. -/
structure CallOracle where
  success : Bool
  lastError : Option NeoEvent
deriving DecidableEq, Repr

/-- Native responses consumed by an out-parameter wrapper: boolean return,
the value written through the out pointer, and the last-error slot. -/
structure OutOracle (α : Type) where
  success : Bool
  value : α
  lastError : Option NeoEvent
deriving DecidableEq, Repr

/-- Native responses consumed by a string length-probe wrapper: boolean
return and written count of the null-buffer probe, boolean return of the
fill call, last-error slot at the wrapper's single potential read, and the
decoding outcome of the filled buffer. -/
structure StrProbeOracle where
  probeSuccess : Bool
  probeCount : Nat
  fillSuccess : Bool
  lastError : Option NeoEvent
  decode : Decoded
deriving DecidableEq, Repr

/-- Native responses consumed by a vector length-probe wrapper: boolean
return and written count of the null-buffer probe, the last-error slot
after a failed probe, boolean return of the fill call, the records the
fill call writes, and the last-error slot after a failed fill. -/
structure VecProbeOracle (α : Type) where
  probeSuccess : Bool
  probeCount : Nat
  probeLastError : Option NeoEvent
  fillSuccess : Bool
  filled : List α
  fillLastError : Option NeoEvent
deriving DecidableEq, Repr

/-- Native responses consumed by `find_all_devices`: counts written by the
two `icsneo_findAllDevices` calls, the last-error slot at the read after
each call, and the device records the second call writes. -/
structure FindAllOracle where
  count1 : Nat
  lastError1 : Option NeoEvent
  count2 : Nat
  filled : List NeoDevice
  lastError2 : Option NeoEvent
deriving DecidableEq, Repr

/-- Overwrite a prefix of the zero-initialized buffer `init` with the
records `written` that the native call produced; the buffer keeps its
allocated length. -/
def fillBuffer {α : Type} (init written : List α) : List α :=
  written.take init.length ++ init.drop (written.take init.length).length

/-- Check whether a wrapper result is `Ok` of an empty vector. -/
def isOkEmpty {α : Type} : Except Error (List α) → Bool
  | Except.ok [] => true
  | _ => false

instance {ε α : Type} [DecidableEq ε] [DecidableEq α] : DecidableEq (Except ε α) := fun x y =>
  match x, y with
  | Except.ok a, Except.ok b =>
    if h : a = b then isTrue (by rw [h]) else isFalse (fun hh => h (Except.ok.inj hh))
  | Except.error a, Except.error b =>
    if h : a = b then isTrue (by rw [h]) else isFalse (fun hh => h (Except.error.inj hh))
  | Except.ok _, Except.error _ => isFalse (fun hh => Except.noConfusion hh)
  | Except.error _, Except.ok _ => isFalse (fun hh => Except.noConfusion hh)

/-- Template shared by the pass-through wrappers of `safe.rs`: one native
invocation, arguments forwarded unchanged, native return value returned
unchanged. -/
def passThrough {β : Type} (f : NFun) (args : List Arg) (ret : β) : β × List NCall :=
  (ret, [{ name := f, buf := BufArg.noBuf, args := args }])

/-- Template shared by the call-check-map wrappers of `safe.rs` returning
`Result<()>`: invoke, and when the call returns `false` read the
last-error slot, mapping a held event to `ErrorOccurred` and an empty slot
to `CriticalError bug`. -/
def callCheckMapUnit (f : NFun) (args : List Arg) (bug : String) (o : CallOracle) :
    Except Error Unit × List NCall :=
  if !o.success then
    match o.lastError with
    | some e =>
        (Except.error (Error.ErrorOccurred e), [{ name := f, buf := BufArg.noBuf, args := args }, gleCall])
    | none =>
        (Except.error (Error.CriticalError bug), [{ name := f, buf := BufArg.noBuf, args := args }, gleCall])
  else
    (Except.ok (), [{ name := f, buf := BufArg.noBuf, args := args }])

/-- Template of `is_open` in `safe.rs`: like `callCheckMapUnit` but the
success path returns `Ok(success)` (necessarily `Ok(true)`). -/
def callCheckMapBool (f : NFun) (args : List Arg) (bug : String) (o : CallOracle) :
    Except Error Bool × List NCall :=
  if !o.success then
    match o.lastError with
    | some e =>
        (Except.error (Error.ErrorOccurred e), [{ name := f, buf := BufArg.noBuf, args := args }, gleCall])
    | none =>
        (Except.error (Error.CriticalError bug), [{ name := f, buf := BufArg.noBuf, args := args }, gleCall])
  else
    (Except.ok o.success, [{ name := f, buf := BufArg.noBuf, args := args }])

/-- Template of `is_online` in `safe.rs`: on a `false` return the
last-error slot is read, but an empty slot falls through to
`Ok(success)` rather than producing a `CriticalError`. -/
def callCheckTolerant (f : NFun) (args : List Arg) (o : CallOracle) :
    Except Error Bool × List NCall :=
  if !o.success then
    match o.lastError with
    | some e =>
        (Except.error (Error.ErrorOccurred e), [{ name := f, buf := BufArg.noBuf, args := args }, gleCall])
    | none =>
        (Except.ok o.success, [{ name := f, buf := BufArg.noBuf, args := args }, gleCall])
  else
    (Except.ok o.success, [{ name := f, buf := BufArg.noBuf, args := args }])

/-- Template of the out-parameter wrappers of `safe.rs`
(`get_timestamp_resolution`, `get_digital_io`): invoke with an out
pointer, check the boolean return, on success return the written value. -/
def outParamCheck {α : Type} (f : NFun) (args : List Arg) (bug : String) (o : OutOracle α) :
    Except Error α × List NCall :=
  if !o.success then
    match o.lastError with
    | some e =>
        (Except.error (Error.ErrorOccurred e), [{ name := f, buf := BufArg.noBuf, args := args }, gleCall])
    | none =>
        (Except.error (Error.CriticalError bug), [{ name := f, buf := BufArg.noBuf, args := args }, gleCall])
  else
    (Except.ok o.value, [{ name := f, buf := BufArg.noBuf, args := args }])

/-- Template shared by the four string length-probe wrappers of `safe.rs`:
probe with a null buffer (a `true` return here is the query failure and
yields `CriticalError qmsg`), add one to the obtained count for the NUL
terminator, allocate, call again, map a failed fill through the last-error
slot, and decode the buffer. -/
def strLengthProbe (f : NFun) (args : List Arg) (qmsg fmsg dpref : String)
    (o : StrProbeOracle) : Except Error String × List NCall :=
  let probe : NCall := { name := f, buf := BufArg.nullPtr, args := args }
  if o.probeSuccess then
    (Except.error (Error.CriticalError qmsg), [probe])
  else
    let count := o.probeCount + 1
    let fill : NCall := { name := f, buf := BufArg.alloc count, args := args }
    if !o.fillSuccess then
      match o.lastError with
      | some e => (Except.error (Error.ErrorOccurred e), [probe, fill, gleCall])
      | none => (Except.error (Error.CriticalError fmsg), [probe, fill, gleCall])
    else
      match o.decode with
      | Decoded.ok s => (Except.ok s, [probe, fill])
      | Decoded.invalid e =>
          (Except.error (Error.CriticalError (dpref ++ e)), [probe, fill])

/-- Template shared by the vector length-probe wrappers of `safe.rs`
(`get_messages`, `get_events`, `get_device_events`,
`get_supported_devices`): probe with a null buffer checking the boolean
return, allocate `probeCount` zeroed records, call again, check again, and
return the filled records. -/
def vecLengthProbe {α : Type} (initElem : α) (f : NFun) (args : List Arg)
    (pmsg fmsg : String) (o : VecProbeOracle α) :
    Except Error (List α) × List NCall :=
  let probe : NCall := { name := f, buf := BufArg.nullPtr, args := args }
  if !o.probeSuccess then
    match o.probeLastError with
    | some e => (Except.error (Error.ErrorOccurred e), [probe, gleCall])
    | none => (Except.error (Error.CriticalError pmsg), [probe, gleCall])
  else
    let buf := List.replicate o.probeCount initElem
    let fill : NCall := { name := f, buf := BufArg.alloc o.probeCount, args := args }
    if !o.fillSuccess then
      match o.fillLastError with
      | some e => (Except.error (Error.ErrorOccurred e), [probe, fill, gleCall])
      | none => (Except.error (Error.CriticalError fmsg), [probe, fill, gleCall])
    else
      (Except.ok (fillBuffer buf o.filled), [probe, fill])

namespace safe

/-- Embedding of `find_all_devices` in `src/src/safe.rs`: probe the device
count with a null buffer, read the last-error slot, return `NoDevicesFound`
on a zero count, allocate `count1` zeroed records, call again, return
`NoDevicesFound` on a zero updated count, read the slot again, and return
the filled records. -/
def find_all_devices (o : FindAllOracle) : Except Error (List NeoDevice) × List NCall :=
  let probe : NCall := { name := NFun.findAllDevices, buf := BufArg.nullPtr, args := [] }
  match o.lastError1 with
  | some e => (Except.error (Error.ErrorOccurred e), [probe, gleCall])
  | none =>
    if o.count1 = 0 then
      (Except.error Error.NoDevicesFound, [probe, gleCall])
    else
      let devices := List.replicate o.count1 NeoDevice.new
      let fill : NCall := { name := NFun.findAllDevices, buf := BufArg.alloc o.count1, args := [] }
      if o.count2 = 0 then
        (Except.error Error.NoDevicesFound, [probe, gleCall, fill])
      else
        match o.lastError2 with
        | some e => (Except.error (Error.ErrorOccurred e), [probe, gleCall, fill, gleCall])
        | none => (Except.ok (fillBuffer devices o.filled), [probe, gleCall, fill, gleCall])

/-- Embedding of `free_unconnected_devices` in `safe.rs`: one void native
call, always `Ok(())`. -/
def free_unconnected_devices : Except Error Unit × List NCall :=
  (Except.ok (), [{ name := NFun.freeUnconnectedDevices, buf := BufArg.noBuf, args := [] }])

/-- Embedding of `serial_num_to_string` in `safe.rs` (string length
probe; the fill buffer is the obtained count plus one for the NUL
terminator). -/
def serial_num_to_string (num : Nat) (o : StrProbeOracle) : Except Error String × List NCall :=
  strLengthProbe NFun.serialNumToString [Arg.nat num]
    "icsneo_serialNumToString() failed to query length!"
    "icsneo_serialNumToString() failed to convert!"
    "Failed to convert serial number buffer to CString: " o

/-- Embedding of `serial_string_to_num` in `safe.rs`: pass-through of
`icsneo_serialStringToNum`, no error handling. -/
def serial_string_to_num (native : String → Nat) (serial_str : String) : Nat × List NCall :=
  passThrough NFun.serialStringToNum [Arg.str serial_str] (native serial_str)

/-- Embedding of `get_last_error` in `safe.rs`: read the process-global
last-error slot; `Some` of the written event when the native call returns
true, `None` otherwise. -/
def get_last_error (slot : Option NeoEvent) : Option NeoEvent × List NCall :=
  (slot, [gleCall])

/-- Embedding of `is_valid_neodevice` in `safe.rs`: pass-through of
`icsneo_isValidNeoDevice`. -/
def is_valid_neodevice (native : NeoDevice → Bool) (device : NeoDevice) : Bool × List NCall :=
  passThrough NFun.isValidNeoDevice [Arg.dev device] (native device)

/-- Embedding of `open_device` in `safe.rs` (call-check-map). -/
def open_device (device : NeoDevice) (o : CallOracle) : Except Error Unit × List NCall :=
  callCheckMapUnit NFun.openDevice [Arg.dev device]
    "Bug() get_last_error() should have had an error" o

/-- Embedding of `close_device` in `safe.rs` (call-check-map). -/
def close_device (device : NeoDevice) (o : CallOracle) : Except Error Unit × List NCall :=
  callCheckMapUnit NFun.closeDevice [Arg.dev device]
    "Bug: get_last_error() should have had errors." o

/-- Embedding of `is_open` in `safe.rs`: call-check-map whose success path
returns `Ok(success)`; both failure branches return an error. -/
def is_open (device : NeoDevice) (o : CallOracle) : Except Error Bool × List NCall :=
  callCheckMapBool NFun.isOpen [Arg.dev device]
    "Bug: get_last_error() should have had errors." o

/-- Embedding of `go_online` in `safe.rs` (call-check-map). -/
def go_online (device : NeoDevice) (o : CallOracle) : Except Error Unit × List NCall :=
  callCheckMapUnit NFun.goOnline [Arg.dev device] "Couldn't go online" o

/-- Embedding of `go_offline` in `safe.rs` (call-check-map). -/
def go_offline (device : NeoDevice) (o : CallOracle) : Except Error Unit × List NCall :=
  callCheckMapUnit NFun.goOffline [Arg.dev device] "Couldn't go offline" o

/-- Embedding of `is_online` in `safe.rs`: on a `false` return with an
empty last-error slot it falls through to `Ok(false)`. -/
def is_online (device : NeoDevice) (o : CallOracle) : Except Error Bool × List NCall :=
  callCheckTolerant NFun.isOnline [Arg.dev device] o

/-- Embedding of `enable_message_polling` in `safe.rs` (pass-through). -/
def enable_message_polling (native : NeoDevice → Bool) (device : NeoDevice) :
    Bool × List NCall :=
  passThrough NFun.enableMessagePolling [Arg.dev device] (native device)

/-- Embedding of `disable_message_polling` in `safe.rs` (pass-through). -/
def disable_message_polling (native : NeoDevice → Bool) (device : NeoDevice) :
    Bool × List NCall :=
  passThrough NFun.disableMessagePolling [Arg.dev device] (native device)

/-- Embedding of `is_message_polling_enabled` in `safe.rs`
(pass-through). -/
def is_message_polling_enabled (native : NeoDevice → Bool) (device : NeoDevice) :
    Bool × List NCall :=
  passThrough NFun.isMessagePollingEnabled [Arg.dev device] (native device)

/-- Embedding of `get_messages` in `safe.rs` (vector length probe with a
timeout argument; both failure messages in the source read the same). -/
def get_messages (device : NeoDevice) (timeout : Nat) (o : VecProbeOracle NeoMessage) :
    Except Error (List NeoMessage) × List NCall :=
  vecLengthProbe NeoMessage.new NFun.getMessages [Arg.dev device, Arg.nat timeout]
    "Bug() get_last_error() should have had an error"
    "Bug() get_last_error() should have had an error" o

/-- Embedding of `get_polling_message_limit` in `safe.rs`: pass-through of
the native count, with the sentinel `-1` mapped to `DeviceInvalid`. -/
def get_polling_message_limit (native : NeoDevice → Int) (device : NeoDevice) :
    Except Error Int × List NCall :=
  let count := native device
  if count = -1 then
    (Except.error Error.DeviceInvalid,
      [{ name := NFun.getPollingMessageLimit, buf := BufArg.noBuf, args := [Arg.dev device] }])
  else
    (Except.ok count,
      [{ name := NFun.getPollingMessageLimit, buf := BufArg.noBuf, args := [Arg.dev device] }])

/-- Embedding of `set_polling_message_limit` in `safe.rs`
(call-check-map). -/
def set_polling_message_limit (device : NeoDevice) (message_count : Nat) (o : CallOracle) :
    Except Error Unit × List NCall :=
  callCheckMapUnit NFun.setPollingMessageLimit [Arg.dev device, Arg.nat message_count]
    "Bug: get_last_error() should have had errors" o

/-- Embedding of `transmit` in `safe.rs` (call-check-map). -/
def transmit (device : NeoDevice) (message : NeoMessage) (o : CallOracle) :
    Except Error Unit × List NCall :=
  callCheckMapUnit NFun.transmit [Arg.dev device, Arg.msg message]
    "Bug: get_last_error() should have had errors" o

/-- Embedding of `transmit_messages` in `safe.rs` (call-check-map; the
source forwards the message buffer pointer and its length). -/
def transmit_messages (device : NeoDevice) (messages : List NeoMessage) (o : CallOracle) :
    Except Error Unit × List NCall :=
  callCheckMapUnit NFun.transmitMessages [Arg.dev device, Arg.nat messages.length]
    "Bug: get_last_error() should have had errors" o

/-- Embedding of `describe_device` in `safe.rs` (string length probe; the
query-failure message is the `icsneo_serialNumToString` text, copied
verbatim in the source). -/
def describe_device (device : NeoDevice) (o : StrProbeOracle) :
    Except Error String × List NCall :=
  strLengthProbe NFun.describeDevice [Arg.dev device]
    "icsneo_serialNumToString() failed to query length!"
    "icsneo_describeDevice() failed!"
    "Failed to device description buffer to CString: " o

/-- Embedding of `get_network_by_number` in `safe.rs` (pass-through). -/
def get_network_by_number (native : NeoDevice → Nat → Nat → Nat) (device : NeoDevice)
    (neo_net_type : Nat) (number : Nat) : Nat × List NCall :=
  passThrough NFun.getNetworkByNumber
    [Arg.dev device, Arg.nat neo_net_type, Arg.nat number]
    (native device neo_net_type number)

/-- Embedding of `get_product_name` in `safe.rs` (string length probe). -/
def get_product_name (device : NeoDevice) (o : StrProbeOracle) :
    Except Error String × List NCall :=
  strLengthProbe NFun.getProductName [Arg.dev device]
    "icsneo_serialNumToString() failed to query length!"
    "icsneo_getProductName() failed!"
    "Failed to device description buffer to CString: " o

/-- Embedding of `get_product_name_for_type` in `safe.rs` (string length
probe). -/
def get_product_name_for_type (device_type : Nat) (o : StrProbeOracle) :
    Except Error String × List NCall :=
  strLengthProbe NFun.getProductNameForType [Arg.nat device_type]
    "icsneo_serialNumToString() failed to query length!"
    "icsneo_getProductNameForType() failed!"
    "Failed to device description buffer to CString: " o

/-- Embedding of `get_version` in `safe.rs`: pass-through of the
`neoversion_t` the native call returns by value. -/
def get_version (native : NeoVersion) : NeoVersion × List NCall :=
  passThrough NFun.getVersion [] native

/-- Embedding of `get_baudrate` in `safe.rs` (pass-through). -/
def get_baudrate (native : NeoDevice → Nat → Int) (device : NeoDevice) (netid : Nat) :
    Int × List NCall :=
  passThrough NFun.getBaudrate [Arg.dev device, Arg.nat netid] (native device netid)

/-- Embedding of `set_baudrate` in `safe.rs` (pass-through). -/
def set_baudrate (native : NeoDevice → Nat → Int → Bool) (device : NeoDevice)
    (netid : Nat) (new_baudrate : Int) : Bool × List NCall :=
  passThrough NFun.setBaudrate [Arg.dev device, Arg.nat netid, Arg.int new_baudrate]
    (native device netid new_baudrate)

/-- Embedding of `get_fd_baudrate` in `safe.rs` (pass-through). -/
def get_fd_baudrate (native : NeoDevice → Nat → Int) (device : NeoDevice) (netid : Nat) :
    Int × List NCall :=
  passThrough NFun.getFDBaudrate [Arg.dev device, Arg.nat netid] (native device netid)

/-- Embedding of `set_fd_baudrate` in `safe.rs` (pass-through). -/
def set_fd_baudrate (native : NeoDevice → Nat → Int → Bool) (device : NeoDevice)
    (netid : Nat) (new_baudrate : Int) : Bool × List NCall :=
  passThrough NFun.setFDBaudrate [Arg.dev device, Arg.nat netid, Arg.int new_baudrate]
    (native device netid new_baudrate)

/-- Embedding of `set_write_blocks` in `safe.rs` (void pass-through). -/
def set_write_blocks (device : NeoDevice) (blocks : Bool) : Unit × List NCall :=
  passThrough NFun.setWriteBlocks [Arg.dev device, Arg.bool blocks] ()

/-- Embedding of `get_events` in `safe.rs` (vector length probe). -/
def get_events (o : VecProbeOracle NeoEvent) : Except Error (List NeoEvent) × List NCall :=
  vecLengthProbe NeoEvent.new NFun.getEvents []
    "icsneo_getEvents() failed!" "icsneo_getEvents() failed!" o

/-- Embedding of `get_device_events` in `safe.rs` (vector length
probe). -/
def get_device_events (device : NeoDevice) (o : VecProbeOracle NeoEvent) :
    Except Error (List NeoEvent) × List NCall :=
  vecLengthProbe NeoEvent.new NFun.getDeviceEvents [Arg.dev device]
    "icsneo_getDeviceEvents() failed!" "icsneo_getDeviceEvents() failed!" o

/-- Embedding of `discard_all_events` in `safe.rs` (void pass-through). -/
def discard_all_events : Unit × List NCall :=
  passThrough NFun.discardAllEvents [] ()

/-- Embedding of `discard_all_device_events` in `safe.rs` (void
pass-through of `icsneo_discardDeviceEvents`). -/
def discard_all_device_events (device : NeoDevice) : Unit × List NCall :=
  passThrough NFun.discardDeviceEvents [Arg.dev device] ()

/-- Embedding of `set_event_limit` in `safe.rs` (void pass-through). -/
def set_event_limit (new_limit : Nat) : Unit × List NCall :=
  passThrough NFun.setEventLimit [Arg.nat new_limit] ()

/-- Embedding of `get_event_limit` in `safe.rs` (pass-through). -/
def get_event_limit (native : Nat) : Nat × List NCall :=
  passThrough NFun.getEventLimit [] native

/-- Embedding of `get_supported_devices` in `safe.rs` (vector length
probe over `devicetype_t` values). -/
def get_supported_devices (o : VecProbeOracle Nat) : Except Error (List Nat) × List NCall :=
  vecLengthProbe 0 NFun.getSupportedDevices []
    "icsneo_getSupportedDevices() failed!" "icsneo_getSupportedDevices() failed!" o

/-- Embedding of `get_timestamp_resolution` in `safe.rs` (out-parameter
call-check-map). -/
def get_timestamp_resolution (device : NeoDevice) (o : OutOracle Nat) :
    Except Error Nat × List NCall :=
  outParamCheck NFun.getTimestampResolution [Arg.dev device]
    "icsneo_getTimestampResolution() failed!" o

/-- Embedding of `get_digital_io` in `safe.rs` (out-parameter
call-check-map). -/
def get_digital_io (device : NeoDevice) (io_type : Nat) (io_number : Nat)
    (o : OutOracle Bool) : Except Error Bool × List NCall :=
  outParamCheck NFun.getDigitalIO [Arg.dev device, Arg.nat io_type, Arg.nat io_number]
    "icsneo_getDigitalIO() failed!" o

/-- Embedding of `set_digital_io` in `safe.rs` (call-check-map). -/
def set_digital_io (device : NeoDevice) (io_type : Nat) (io_number : Nat)
    (value : Bool) (o : CallOracle) : Except Error Unit × List NCall :=
  callCheckMapUnit NFun.setDigitalIO
    [Arg.dev device, Arg.nat io_type, Arg.nat io_number, Arg.bool value]
    "icsneo_setDigitalIO() failed!" o

/-- Embedding of `is_termination_supported_for` in `safe.rs`
(pass-through). -/
def is_termination_supported_for (native : NeoDevice → Nat → Bool)
    (device : NeoDevice) (netid : Nat) : Bool × List NCall :=
  passThrough NFun.isTerminationSupportedFor [Arg.dev device, Arg.nat netid]
    (native device netid)

/-- Embedding of `can_termination_be_enabled_for` in `safe.rs`
(pass-through). -/
def can_termination_be_enabled_for (native : NeoDevice → Nat → Bool)
    (device : NeoDevice) (netid : Nat) : Bool × List NCall :=
  passThrough NFun.canTerminationBeEnabledFor [Arg.dev device, Arg.nat netid]
    (native device netid)

/-- Embedding of `is_termination_enabled_for` in `safe.rs`
(pass-through). -/
def is_termination_enabled_for (native : NeoDevice → Nat → Bool)
    (device : NeoDevice) (netid : Nat) : Bool × List NCall :=
  passThrough NFun.isTerminationEnabledFor [Arg.dev device, Arg.nat netid]
    (native device netid)

/-- Embedding of `set_termination_for` in `safe.rs` (pass-through). -/
def set_termination_for (native : NeoDevice → Nat → Bool → Bool)
    (device : NeoDevice) (netid : Nat) (enabled : Bool) : Bool × List NCall :=
  passThrough NFun.setTerminationFor [Arg.dev device, Arg.nat netid, Arg.bool enabled]
    (native device netid enabled)

end safe

namespace icsneo

/-- Embedding of the sibling `find_all_devices` in
`src/crates/libicsneo-rs/src/icsneo.rs`: probe the device count with a
null buffer, read the last-error slot, resize a vector to `count1`
default (zeroed) records with no zero-count check, call again, read the
slot again (with no check of the updated count), and return the filled
records. -/
def find_all_devices (o : FindAllOracle) : Except Error (List NeoDevice) × List NCall :=
  let probe : NCall := { name := NFun.findAllDevices, buf := BufArg.nullPtr, args := [] }
  match o.lastError1 with
  | some e => (Except.error (Error.ErrorOccurred e), [probe, gleCall])
  | none =>
    let devices := List.replicate o.count1 NeoDevice.default
    let fill : NCall := { name := NFun.findAllDevices, buf := BufArg.alloc o.count1, args := [] }
    match o.lastError2 with
    | some e => (Except.error (Error.ErrorOccurred e), [probe, gleCall, fill, gleCall])
    | none => (Except.ok (fillBuffer devices o.filled), [probe, gleCall, fill, gleCall])

end icsneo

/-! Result-level characterizations of the shared templates, used by several
claims below. -/

theorem callCheckMapUnit_ok_iff (f : NFun) (args : List Arg) (bug : String) (o : CallOracle) :
    (callCheckMapUnit f args bug o).1 = Except.ok () ↔ o.success = true := by
  obtain ⟨su, le⟩ := o
  cases su <;> cases le <;> simp [callCheckMapUnit]

theorem callCheckMapUnit_errOcc_iff (f : NFun) (args : List Arg) (bug : String)
    (o : CallOracle) (e : NeoEvent) :
    (callCheckMapUnit f args bug o).1 = Except.error (Error.ErrorOccurred e) ↔
      (o.success = false ∧ o.lastError = some e) := by
  obtain ⟨su, le⟩ := o
  cases su <;> cases le <;> simp [callCheckMapUnit]

theorem callCheckMapUnit_critical_iff (f : NFun) (args : List Arg) (bug : String)
    (o : CallOracle) :
    (∃ msg, (callCheckMapUnit f args bug o).1 = Except.error (Error.CriticalError msg)) ↔
      (o.success = false ∧ o.lastError = none) := by
  obtain ⟨su, le⟩ := o
  cases su <;> cases le <;> simp [callCheckMapUnit]

theorem callCheckMapBool_ok_true_iff (f : NFun) (args : List Arg) (bug : String)
    (o : CallOracle) :
    (callCheckMapBool f args bug o).1 = Except.ok true ↔ o.success = true := by
  obtain ⟨su, le⟩ := o
  cases su <;> cases le <;> simp [callCheckMapBool]

theorem callCheckMapBool_ok_false_iff (f : NFun) (args : List Arg) (bug : String)
    (o : CallOracle) :
    ((callCheckMapBool f args bug o).1 = Except.ok false) ↔ False := by
  obtain ⟨su, le⟩ := o
  cases su <;> cases le <;> simp [callCheckMapBool]

theorem callCheckMapBool_errOcc_iff (f : NFun) (args : List Arg) (bug : String)
    (o : CallOracle) (e : NeoEvent) :
    (callCheckMapBool f args bug o).1 = Except.error (Error.ErrorOccurred e) ↔
      (o.success = false ∧ o.lastError = some e) := by
  obtain ⟨su, le⟩ := o
  cases su <;> cases le <;> simp [callCheckMapBool]

theorem callCheckMapBool_critical_iff (f : NFun) (args : List Arg) (bug : String)
    (o : CallOracle) :
    (∃ msg, (callCheckMapBool f args bug o).1 = Except.error (Error.CriticalError msg)) ↔
      (o.success = false ∧ o.lastError = none) := by
  obtain ⟨su, le⟩ := o
  cases su <;> cases le <;> simp [callCheckMapBool]

theorem callCheckTolerant_errOcc_iff (f : NFun) (args : List Arg)
    (o : CallOracle) (e : NeoEvent) :
    (callCheckTolerant f args o).1 = Except.error (Error.ErrorOccurred e) ↔
      (o.success = false ∧ o.lastError = some e) := by
  obtain ⟨su, le⟩ := o
  cases su <;> cases le <;> simp [callCheckTolerant]

theorem outParamCheck_errOcc_iff {α : Type} (f : NFun) (args : List Arg) (bug : String)
    (o : OutOracle α) (e : NeoEvent) :
    (outParamCheck f args bug o).1 = Except.error (Error.ErrorOccurred e) ↔
      (o.success = false ∧ o.lastError = some e) := by
  obtain ⟨su, v, le⟩ := o
  cases su <;> cases le <;> simp [outParamCheck]

theorem strLengthProbe_errOcc_iff (f : NFun) (args : List Arg) (qmsg fmsg dpref : String)
    (o : StrProbeOracle) (e : NeoEvent) :
    (strLengthProbe f args qmsg fmsg dpref o).1 = Except.error (Error.ErrorOccurred e) ↔
      (o.probeSuccess = false ∧ o.fillSuccess = false ∧ o.lastError = some e) := by
  obtain ⟨ps, pc, fs, le, dec⟩ := o
  cases ps <;> cases fs <;> cases le <;> cases dec <;> simp [strLengthProbe]

theorem vecLengthProbe_errOcc_iff {α : Type} (initElem : α) (f : NFun) (args : List Arg)
    (pmsg fmsg : String) (o : VecProbeOracle α) (e : NeoEvent) :
    (vecLengthProbe initElem f args pmsg fmsg o).1 = Except.error (Error.ErrorOccurred e) ↔
      ((o.probeSuccess = false ∧ o.probeLastError = some e) ∨
        (o.probeSuccess = true ∧ o.fillSuccess = false ∧ o.fillLastError = some e)) := by
  obtain ⟨ps, pc, ple, fs, fl, fle⟩ := o
  cases ps <;> cases fs <;> cases ple <;> cases fle <;> simp [vecLengthProbe]

theorem fillBuffer_length {α : Type} (init written : List α) :
    (fillBuffer init written).length = init.length := by
  simp only [fillBuffer, List.length_append, List.length_take, List.length_drop]
  omega

/-- C3: `open_device` and `close_device` return `Ok(())` exactly when the
single native call returns true; on a false return they map a held
last-error event to `ErrorOccurred` and an empty slot to
`CriticalError`. -/
theorem C3_open_close_result_mapping :
    ∀ (device : NeoDevice) (o1 o2 : CallOracle),
      (((safe.open_device device o1).1 = Except.ok () ↔ o1.success = true) ∧
        (∀ e, (safe.open_device device o1).1 = Except.error (Error.ErrorOccurred e) ↔
          (o1.success = false ∧ o1.lastError = some e)) ∧
        ((∃ msg, (safe.open_device device o1).1 = Except.error (Error.CriticalError msg)) ↔
          (o1.success = false ∧ o1.lastError = none))) ∧
      (((safe.close_device device o2).1 = Except.ok () ↔ o2.success = true) ∧
        (∀ e, (safe.close_device device o2).1 = Except.error (Error.ErrorOccurred e) ↔
          (o2.success = false ∧ o2.lastError = some e)) ∧
        ((∃ msg, (safe.close_device device o2).1 = Except.error (Error.CriticalError msg)) ↔
          (o2.success = false ∧ o2.lastError = none))) := by
  intro device o1 o2
  exact ⟨⟨callCheckMapUnit_ok_iff _ _ _ o1,
      fun e => callCheckMapUnit_errOcc_iff _ _ _ o1 e,
      callCheckMapUnit_critical_iff _ _ _ o1⟩,
    ⟨callCheckMapUnit_ok_iff _ _ _ o2,
      fun e => callCheckMapUnit_errOcc_iff _ _ _ o2 e,
      callCheckMapUnit_critical_iff _ _ _ o2⟩⟩

/-- C9: `is_open` never returns `Ok(false)`: its result is `Ok(true)`
exactly when the native `icsneo_isOpen` call returns true, and on a false
return it is `ErrorOccurred` when the last-error slot holds an event and
`CriticalError` when the slot is empty. -/
theorem C9_is_open_never_ok_false :
    ∀ (device : NeoDevice) (o : CallOracle),
      ((safe.is_open device o).1 = Except.ok true ↔ o.success = true) ∧
      (((safe.is_open device o).1 = Except.ok false) ↔ False) ∧
      (∀ e, (safe.is_open device o).1 = Except.error (Error.ErrorOccurred e) ↔
        (o.success = false ∧ o.lastError = some e)) ∧
      ((∃ msg, (safe.is_open device o).1 = Except.error (Error.CriticalError msg)) ↔
        (o.success = false ∧ o.lastError = none)) := by
  intro device o
  exact ⟨callCheckMapBool_ok_true_iff _ _ _ o,
    callCheckMapBool_ok_false_iff _ _ _ o,
    fun e => callCheckMapBool_errOcc_iff _ _ _ o e,
    callCheckMapBool_critical_iff _ _ _ o⟩

/-- C1 counterexample: `serial_num_to_string` probed a required size of 5
but performs its second invocation with a buffer of 6 elements (the
obtained size plus one for the NUL terminator), not with a buffer of
exactly the obtained size as the claim states. -/
theorem C1_counterexample :
    bufsOf NFun.serialNumToString
        (safe.serial_num_to_string 50000
          { probeSuccess := false, probeCount := 5, fillSuccess := true,
            lastError := none, decode := Decoded.ok "50000" }).2
      = [BufArg.nullPtr, BufArg.alloc 6] ∧
    ¬ (bufsOf NFun.serialNumToString
        (safe.serial_num_to_string 50000
          { probeSuccess := false, probeCount := 5, fillSuccess := true,
            lastError := none, decode := Decoded.ok "50000" }).2
      = [BufArg.nullPtr, BufArg.alloc 5]) := by
  constructor
  · rfl
  · decide

/-- C1 (amended): each of the four string-returning length-probe wrappers
first invokes its native function with a null buffer pointer, and any
second invocation passes an allocated buffer of exactly the obtained size
plus one (room for the NUL terminator). -/
theorem C1_amended_probe_then_fill_plus_one :
    (∀ (num : Nat) (o : StrProbeOracle),
      bufsOf NFun.serialNumToString (safe.serial_num_to_string num o).2 =
        BufArg.nullPtr ::
          (if o.probeSuccess then [] else [BufArg.alloc (o.probeCount + 1)])) ∧
    (∀ (device : NeoDevice) (o : StrProbeOracle),
      bufsOf NFun.describeDevice (safe.describe_device device o).2 =
        BufArg.nullPtr ::
          (if o.probeSuccess then [] else [BufArg.alloc (o.probeCount + 1)])) ∧
    (∀ (device : NeoDevice) (o : StrProbeOracle),
      bufsOf NFun.getProductName (safe.get_product_name device o).2 =
        BufArg.nullPtr ::
          (if o.probeSuccess then [] else [BufArg.alloc (o.probeCount + 1)])) ∧
    (∀ (device_type : Nat) (o : StrProbeOracle),
      bufsOf NFun.getProductNameForType (safe.get_product_name_for_type device_type o).2 =
        BufArg.nullPtr ::
          (if o.probeSuccess then [] else [BufArg.alloc (o.probeCount + 1)])) := by
  refine ⟨?_, ?_, ?_, ?_⟩ <;>
    · intro x o
      obtain ⟨ps, pc, fs, le, dec⟩ := o
      cases ps <;> cases fs <;> cases le <;> cases dec <;> rfl

/-- C8 counterexample: when the first `icsneo_findAllDevices` invocation
reports a device count of zero while the last-error slot holds an event,
`find_all_devices` returns `ErrorOccurred`, not `NoDevicesFound` as the
claim states for every zero count. -/
theorem C8_counterexample :
    (safe.find_all_devices
        { count1 := 0, lastError1 := some NeoEvent.new, count2 := 0,
          filled := [], lastError2 := none }).1
      = Except.error (Error.ErrorOccurred NeoEvent.new) ∧
    ¬ ((safe.find_all_devices
        { count1 := 0, lastError1 := some NeoEvent.new, count2 := 0,
          filled := [], lastError2 := none }).1
      = Except.error Error.NoDevicesFound) := by
  constructor
  · rfl
  · decide

/-- C8 (amended): `find_all_devices` never returns `Ok` with an empty
vector, and it returns `NoDevicesFound` exactly when the last-error slot
is empty after the first call and the native library reports a device
count of zero at either invocation (an event in the slot after the first
call takes precedence). -/
theorem C8_amended_no_ok_empty :
    ∀ (o : FindAllOracle),
      isOkEmpty (safe.find_all_devices o).1 = false ∧
      ((safe.find_all_devices o).1 = Except.error Error.NoDevicesFound ↔
        (o.lastError1 = none ∧ (o.count1 = 0 ∨ o.count2 = 0))) := by
  intro o
  obtain ⟨c1, le1, c2, fl, le2⟩ := o
  cases le1 with
  | some e => simp [safe.find_all_devices, isOkEmpty]
  | none =>
    by_cases h1 : c1 = 0
    · simp [safe.find_all_devices, isOkEmpty, h1]
    · by_cases h2 : c2 = 0
      · simp [safe.find_all_devices, isOkEmpty, h1, h2]
      · cases le2 with
        | some e => simp [safe.find_all_devices, isOkEmpty, h1, h2]
        | none =>
          refine ⟨?_, by simp [safe.find_all_devices, h1, h2]⟩
          have hlen := fillBuffer_length (List.replicate c1 NeoDevice.new) fl
          simp only [safe.find_all_devices, h1, h2, if_neg]
          cases hfb : fillBuffer (List.replicate c1 NeoDevice.new) fl with
          | nil =>
            rw [hfb] at hlen
            simp at hlen
            omega
          | cons a l => simp [hfb, isOkEmpty]

/-- C10 counterexample: on the native response sequence that reports a
device count of zero with an empty last-error slot, the `safe.rs`
`find_all_devices` returns `Err(NoDevicesFound)` while the sibling in
`icsneo.rs` returns `Ok` of the empty list, so the two are not
observationally equivalent. -/
theorem C10_counterexample :
    (safe.find_all_devices
        { count1 := 0, lastError1 := none, count2 := 0,
          filled := [], lastError2 := none }).1
      = Except.error Error.NoDevicesFound ∧
    (icsneo.find_all_devices
        { count1 := 0, lastError1 := none, count2 := 0,
          filled := [], lastError2 := none }).1
      = Except.ok [] ∧
    ¬ ((safe.find_all_devices
        { count1 := 0, lastError1 := none, count2 := 0,
          filled := [], lastError2 := none }).1
      = (icsneo.find_all_devices
        { count1 := 0, lastError1 := none, count2 := 0,
          filled := [], lastError2 := none }).1) := by
  refine ⟨rfl, rfl, ?_⟩
  decide

/-- C10 (amended): whenever both reported device counts are nonzero, the
two sibling `find_all_devices` implementations agree on every native
response sequence, returning the same result and performing the same
native call trace. -/
theorem C10_amended_equiv_on_nonzero_counts :
    ∀ (o : FindAllOracle), o.count1 ≠ 0 → o.count2 ≠ 0 →
      safe.find_all_devices o = icsneo.find_all_devices o := by
  intro o h1 h2
  obtain ⟨c1, le1, c2, fl, le2⟩ := o
  cases le1 with
  | some e => rfl
  | none =>
    cases le2 <;>
      simp [safe.find_all_devices, icsneo.find_all_devices, NeoDevice.default, h1, h2]

/-- C10 witness: the amended equivalence instantiated at a concrete
response sequence with both counts equal to one. -/
theorem C10_amended_equiv_witness :
    ((1 : Nat) ≠ 0 ∧ (1 : Nat) ≠ 0) ∧
    safe.find_all_devices
        { count1 := 1, lastError1 := none, count2 := 1, filled := [NeoDevice.new],
          lastError2 := none }
      = icsneo.find_all_devices
        { count1 := 1, lastError1 := none, count2 := 1, filled := [NeoDevice.new],
          lastError2 := none } :=
  ⟨⟨by decide, by decide⟩,
    C10_amended_equiv_on_nonzero_counts
      { count1 := 1, lastError1 := none, count2 := 1, filled := [NeoDevice.new],
        lastError2 := none } (by decide) (by decide)⟩

/-- C2 counterexample: `set_baudrate` invokes the native
`icsneo_setBaudrate` call, yet its complete call trace is that single
invocation — the process-global last-error slot is never read before the
wrapper returns, refuting the claim that every wrapper reads it after each
native call. -/
theorem C2_counterexample :
    (safe.set_baudrate (fun _ _ _ => false) NeoDevice.new 1 500000).2
      = [{ name := NFun.setBaudrate, buf := BufArg.noBuf,
           args := [Arg.dev NeoDevice.new, Arg.nat 1, Arg.int 500000] }] ∧
    callCount NFun.getLastError
        (safe.set_baudrate (fun _ _ _ => false) NeoDevice.new 1 500000).2 = 0 :=
  ⟨rfl, rfl⟩

/-- C2 (amended): across every public wrapper of `safe.rs`, the
last-error slot is read only on failure-checking paths and each read
immediately follows a native call: call-check-map and out-parameter
wrappers read it exactly when their native call returns false; string
length-probe wrappers exactly when the fill call returns false; vector
length-probe wrappers exactly when the probe or fill call returns false;
`find_all_devices` (whose native call returns void) reads it after each
of its calls unless an early zero-count return precedes the read;
pass-through wrappers never read it; `get_last_error` itself is the one
accessor performing the read. -/
theorem C2_amended_gle_discipline :
    (∀ (o : FindAllOracle),
      gleDiscipline (safe.find_all_devices o).2
        (match o.lastError1 with
         | some _ => 1
         | none => if o.count1 = 0 then 1 else if o.count2 = 0 then 1 else 2)) ∧
    gleDiscipline safe.free_unconnected_devices.2 0 ∧
    (∀ (num : Nat) (o : StrProbeOracle),
      gleDiscipline (safe.serial_num_to_string num o).2
        (if o.probeSuccess then 0 else if o.fillSuccess then 0 else 1)) ∧
    (∀ (native : String → Nat) (serial_str : String),
      gleDiscipline (safe.serial_string_to_num native serial_str).2 0) ∧
    (∀ (slot : Option NeoEvent), (safe.get_last_error slot).2 = [gleCall]) ∧
    (∀ (native : NeoDevice → Bool) (device : NeoDevice),
      gleDiscipline (safe.is_valid_neodevice native device).2 0) ∧
    (∀ (device : NeoDevice) (o : CallOracle),
      gleDiscipline (safe.open_device device o).2 (if o.success then 0 else 1)) ∧
    (∀ (device : NeoDevice) (o : CallOracle),
      gleDiscipline (safe.close_device device o).2 (if o.success then 0 else 1)) ∧
    (∀ (device : NeoDevice) (o : CallOracle),
      gleDiscipline (safe.is_open device o).2 (if o.success then 0 else 1)) ∧
    (∀ (device : NeoDevice) (o : CallOracle),
      gleDiscipline (safe.go_online device o).2 (if o.success then 0 else 1)) ∧
    (∀ (device : NeoDevice) (o : CallOracle),
      gleDiscipline (safe.go_offline device o).2 (if o.success then 0 else 1)) ∧
    (∀ (device : NeoDevice) (o : CallOracle),
      gleDiscipline (safe.is_online device o).2 (if o.success then 0 else 1)) ∧
    (∀ (native : NeoDevice → Bool) (device : NeoDevice),
      gleDiscipline (safe.enable_message_polling native device).2 0) ∧
    (∀ (native : NeoDevice → Bool) (device : NeoDevice),
      gleDiscipline (safe.disable_message_polling native device).2 0) ∧
    (∀ (native : NeoDevice → Bool) (device : NeoDevice),
      gleDiscipline (safe.is_message_polling_enabled native device).2 0) ∧
    (∀ (device : NeoDevice) (timeout : Nat) (o : VecProbeOracle NeoMessage),
      gleDiscipline (safe.get_messages device timeout o).2
        (if o.probeSuccess then (if o.fillSuccess then 0 else 1) else 1)) ∧
    (∀ (native : NeoDevice → Int) (device : NeoDevice),
      gleDiscipline (safe.get_polling_message_limit native device).2 0) ∧
    (∀ (device : NeoDevice) (message_count : Nat) (o : CallOracle),
      gleDiscipline (safe.set_polling_message_limit device message_count o).2
        (if o.success then 0 else 1)) ∧
    (∀ (device : NeoDevice) (message : NeoMessage) (o : CallOracle),
      gleDiscipline (safe.transmit device message o).2 (if o.success then 0 else 1)) ∧
    (∀ (device : NeoDevice) (messages : List NeoMessage) (o : CallOracle),
      gleDiscipline (safe.transmit_messages device messages o).2
        (if o.success then 0 else 1)) ∧
    (∀ (device : NeoDevice) (o : StrProbeOracle),
      gleDiscipline (safe.describe_device device o).2
        (if o.probeSuccess then 0 else if o.fillSuccess then 0 else 1)) ∧
    (∀ (native : NeoDevice → Nat → Nat → Nat) (device : NeoDevice) (t n : Nat),
      gleDiscipline (safe.get_network_by_number native device t n).2 0) ∧
    (∀ (device : NeoDevice) (o : StrProbeOracle),
      gleDiscipline (safe.get_product_name device o).2
        (if o.probeSuccess then 0 else if o.fillSuccess then 0 else 1)) ∧
    (∀ (device_type : Nat) (o : StrProbeOracle),
      gleDiscipline (safe.get_product_name_for_type device_type o).2
        (if o.probeSuccess then 0 else if o.fillSuccess then 0 else 1)) ∧
    (∀ (native : NeoVersion), gleDiscipline (safe.get_version native).2 0) ∧
    (∀ (native : NeoDevice → Nat → Int) (device : NeoDevice) (netid : Nat),
      gleDiscipline (safe.get_baudrate native device netid).2 0) ∧
    (∀ (native : NeoDevice → Nat → Int → Bool) (device : NeoDevice) (netid : Nat) (b : Int),
      gleDiscipline (safe.set_baudrate native device netid b).2 0) ∧
    (∀ (native : NeoDevice → Nat → Int) (device : NeoDevice) (netid : Nat),
      gleDiscipline (safe.get_fd_baudrate native device netid).2 0) ∧
    (∀ (native : NeoDevice → Nat → Int → Bool) (device : NeoDevice) (netid : Nat) (b : Int),
      gleDiscipline (safe.set_fd_baudrate native device netid b).2 0) ∧
    (∀ (device : NeoDevice) (blocks : Bool),
      gleDiscipline (safe.set_write_blocks device blocks).2 0) ∧
    (∀ (o : VecProbeOracle NeoEvent),
      gleDiscipline (safe.get_events o).2
        (if o.probeSuccess then (if o.fillSuccess then 0 else 1) else 1)) ∧
    (∀ (device : NeoDevice) (o : VecProbeOracle NeoEvent),
      gleDiscipline (safe.get_device_events device o).2
        (if o.probeSuccess then (if o.fillSuccess then 0 else 1) else 1)) ∧
    gleDiscipline safe.discard_all_events.2 0 ∧
    (∀ (device : NeoDevice),
      gleDiscipline (safe.discard_all_device_events device).2 0) ∧
    (∀ (new_limit : Nat), gleDiscipline (safe.set_event_limit new_limit).2 0) ∧
    (∀ (native : Nat), gleDiscipline (safe.get_event_limit native).2 0) ∧
    (∀ (o : VecProbeOracle Nat),
      gleDiscipline (safe.get_supported_devices o).2
        (if o.probeSuccess then (if o.fillSuccess then 0 else 1) else 1)) ∧
    (∀ (device : NeoDevice) (o : OutOracle Nat),
      gleDiscipline (safe.get_timestamp_resolution device o).2
        (if o.success then 0 else 1)) ∧
    (∀ (device : NeoDevice) (io_type io_number : Nat) (o : OutOracle Bool),
      gleDiscipline (safe.get_digital_io device io_type io_number o).2
        (if o.success then 0 else 1)) ∧
    (∀ (device : NeoDevice) (io_type io_number : Nat) (value : Bool) (o : CallOracle),
      gleDiscipline (safe.set_digital_io device io_type io_number value o).2
        (if o.success then 0 else 1)) ∧
    (∀ (native : NeoDevice → Nat → Bool) (device : NeoDevice) (netid : Nat),
      gleDiscipline (safe.is_termination_supported_for native device netid).2 0) ∧
    (∀ (native : NeoDevice → Nat → Bool) (device : NeoDevice) (netid : Nat),
      gleDiscipline (safe.can_termination_be_enabled_for native device netid).2 0) ∧
    (∀ (native : NeoDevice → Nat → Bool) (device : NeoDevice) (netid : Nat),
      gleDiscipline (safe.is_termination_enabled_for native device netid).2 0) ∧
    (∀ (native : NeoDevice → Nat → Bool → Bool) (device : NeoDevice) (netid : Nat)
        (enabled : Bool),
      gleDiscipline (safe.set_termination_for native device netid enabled).2 0) := by
  refine ⟨?_, ⟨rfl, rfl⟩, ?_, fun _ _ => ⟨rfl, rfl⟩, fun _ => rfl, fun _ _ => ⟨rfl, rfl⟩,
    ?_, ?_, ?_, ?_, ?_, ?_,
    fun _ _ => ⟨rfl, rfl⟩, fun _ _ => ⟨rfl, rfl⟩, fun _ _ => ⟨rfl, rfl⟩,
    ?_, ?_, ?_, ?_, ?_, ?_,
    fun _ _ _ _ => ⟨rfl, rfl⟩, ?_, ?_,
    fun _ => ⟨rfl, rfl⟩, fun _ _ _ => ⟨rfl, rfl⟩, fun _ _ _ _ => ⟨rfl, rfl⟩,
    fun _ _ _ => ⟨rfl, rfl⟩, fun _ _ _ _ => ⟨rfl, rfl⟩, fun _ _ => ⟨rfl, rfl⟩,
    ?_, ?_, ⟨rfl, rfl⟩, fun _ => ⟨rfl, rfl⟩, fun _ => ⟨rfl, rfl⟩,
    fun _ => ⟨rfl, rfl⟩, ?_, ?_, ?_, ?_,
    fun _ _ _ => ⟨rfl, rfl⟩, fun _ _ _ => ⟨rfl, rfl⟩, fun _ _ _ => ⟨rfl, rfl⟩,
    fun _ _ _ _ => ⟨rfl, rfl⟩⟩
  · intro o
    obtain ⟨c1, le1, c2, fl, le2⟩ := o
    cases le1 with
    | some e => exact ⟨rfl, rfl⟩
    | none =>
      by_cases h1 : c1 = 0 <;> by_cases h2 : c2 = 0 <;> cases le2 <;>
        simp only [safe.find_all_devices, h1, h2] <;> exact ⟨rfl, rfl⟩
  · intro num o
    obtain ⟨ps, pc, fs, le, dec⟩ := o
    cases ps <;> cases fs <;> cases le <;> cases dec <;> exact ⟨rfl, rfl⟩
  · intro device o
    obtain ⟨su, le⟩ := o
    cases su <;> cases le <;> exact ⟨rfl, rfl⟩
  · intro device o
    obtain ⟨su, le⟩ := o
    cases su <;> cases le <;> exact ⟨rfl, rfl⟩
  · intro device o
    obtain ⟨su, le⟩ := o
    cases su <;> cases le <;> exact ⟨rfl, rfl⟩
  · intro device o
    obtain ⟨su, le⟩ := o
    cases su <;> cases le <;> exact ⟨rfl, rfl⟩
  · intro device o
    obtain ⟨su, le⟩ := o
    cases su <;> cases le <;> exact ⟨rfl, rfl⟩
  · intro device o
    obtain ⟨su, le⟩ := o
    cases su <;> cases le <;> exact ⟨rfl, rfl⟩
  · intro device timeout o
    obtain ⟨ps, pc, ple, fs, fl, fle⟩ := o
    cases ps <;> cases fs <;> cases ple <;> cases fle <;> exact ⟨rfl, rfl⟩
  · intro native device
    by_cases h : native device = -1 <;>
      simp only [safe.get_polling_message_limit, h] <;> exact ⟨rfl, rfl⟩
  · intro device message_count o
    obtain ⟨su, le⟩ := o
    cases su <;> cases le <;> exact ⟨rfl, rfl⟩
  · intro device message o
    obtain ⟨su, le⟩ := o
    cases su <;> cases le <;> exact ⟨rfl, rfl⟩
  · intro device messages o
    obtain ⟨su, le⟩ := o
    cases su <;> cases le <;> exact ⟨rfl, rfl⟩
  · intro device o
    obtain ⟨ps, pc, fs, le, dec⟩ := o
    cases ps <;> cases fs <;> cases le <;> cases dec <;> exact ⟨rfl, rfl⟩
  · intro device o
    obtain ⟨ps, pc, fs, le, dec⟩ := o
    cases ps <;> cases fs <;> cases le <;> cases dec <;> exact ⟨rfl, rfl⟩
  · intro device_type o
    obtain ⟨ps, pc, fs, le, dec⟩ := o
    cases ps <;> cases fs <;> cases le <;> cases dec <;> exact ⟨rfl, rfl⟩
  · intro o
    obtain ⟨ps, pc, ple, fs, fl, fle⟩ := o
    cases ps <;> cases fs <;> cases ple <;> cases fle <;> exact ⟨rfl, rfl⟩
  · intro device o
    obtain ⟨ps, pc, ple, fs, fl, fle⟩ := o
    cases ps <;> cases fs <;> cases ple <;> cases fle <;> exact ⟨rfl, rfl⟩
  · intro o
    obtain ⟨ps, pc, ple, fs, fl, fle⟩ := o
    cases ps <;> cases fs <;> cases ple <;> cases fle <;> exact ⟨rfl, rfl⟩
  · intro device o
    obtain ⟨su, v, le⟩ := o
    cases su <;> cases le <;> exact ⟨rfl, rfl⟩
  · intro device io_type io_number o
    obtain ⟨su, v, le⟩ := o
    cases su <;> cases le <;> exact ⟨rfl, rfl⟩
  · intro device io_type io_number value o
    obtain ⟨su, le⟩ := o
    cases su <;> cases le <;> exact ⟨rfl, rfl⟩

/-- C4 counterexample: `set_baudrate` follows neither of the claim's two
templates at a failing native call: its trace is one buffer-less
invocation (no null-buffer length probe), it performs no last-error read
although the native call returned false, and it returns the bare boolean
rather than a mapped error. -/
theorem C4_counterexample :
    (safe.set_baudrate (fun _ _ _ => false) NeoDevice.new 2 250000).1 = false ∧
    (safe.set_baudrate (fun _ _ _ => false) NeoDevice.new 2 250000).2
      = [{ name := NFun.setBaudrate, buf := BufArg.noBuf,
           args := [Arg.dev NeoDevice.new, Arg.nat 2, Arg.int 250000] }] ∧
    isProbeShape NFun.setBaudrate
        (safe.set_baudrate (fun _ _ _ => false) NeoDevice.new 2 250000).2 = false ∧
    callCount NFun.getLastError
        (safe.set_baudrate (fun _ _ _ => false) NeoDevice.new 2 250000).2 = 0 :=
  ⟨rfl, rfl, rfl, rfl⟩

/-- C4 (amended): every public wrapper of `safe.rs` follows one of three
templates: (a) the length-probe template (null-buffer probe first, every
further invocation of the same native function with an allocated buffer —
the four string wrappers, the four vector wrappers and `find_all_devices`),
(b) the call-check-map template (one buffer-less invocation followed by at
most one last-error read), or (c) the direct pass-through template (one
buffer-less invocation forwarding the native return value unchanged, with
`free_unconnected_devices` wrapping its void call in `Ok(())`,
`get_polling_message_limit` mapping the sentinel -1 to `DeviceInvalid`,
and `get_last_error` being the slot accessor itself). -/
theorem C4_amended_three_templates :
    (∀ (o : FindAllOracle),
      isProbeShape NFun.findAllDevices (safe.find_all_devices o).2 = true) ∧
    (isPassThroughShape NFun.freeUnconnectedDevices safe.free_unconnected_devices.2 = true ∧
      safe.free_unconnected_devices.1 = Except.ok ()) ∧
    (∀ (num : Nat) (o : StrProbeOracle),
      isProbeShape NFun.serialNumToString (safe.serial_num_to_string num o).2 = true) ∧
    (∀ (native : String → Nat) (serial_str : String),
      isPassThroughShape NFun.serialStringToNum
          (safe.serial_string_to_num native serial_str).2 = true ∧
        (safe.serial_string_to_num native serial_str).1 = native serial_str) ∧
    (∀ (slot : Option NeoEvent),
      isPassThroughShape NFun.getLastError (safe.get_last_error slot).2 = true ∧
        (safe.get_last_error slot).1 = slot) ∧
    (∀ (native : NeoDevice → Bool) (device : NeoDevice),
      isPassThroughShape NFun.isValidNeoDevice
          (safe.is_valid_neodevice native device).2 = true ∧
        (safe.is_valid_neodevice native device).1 = native device) ∧
    (∀ (device : NeoDevice) (o : CallOracle),
      isCallCheckShape NFun.openDevice (safe.open_device device o).2 = true) ∧
    (∀ (device : NeoDevice) (o : CallOracle),
      isCallCheckShape NFun.closeDevice (safe.close_device device o).2 = true) ∧
    (∀ (device : NeoDevice) (o : CallOracle),
      isCallCheckShape NFun.isOpen (safe.is_open device o).2 = true) ∧
    (∀ (device : NeoDevice) (o : CallOracle),
      isCallCheckShape NFun.goOnline (safe.go_online device o).2 = true) ∧
    (∀ (device : NeoDevice) (o : CallOracle),
      isCallCheckShape NFun.goOffline (safe.go_offline device o).2 = true) ∧
    (∀ (device : NeoDevice) (o : CallOracle),
      isCallCheckShape NFun.isOnline (safe.is_online device o).2 = true) ∧
    (∀ (native : NeoDevice → Bool) (device : NeoDevice),
      isPassThroughShape NFun.enableMessagePolling
          (safe.enable_message_polling native device).2 = true ∧
        (safe.enable_message_polling native device).1 = native device) ∧
    (∀ (native : NeoDevice → Bool) (device : NeoDevice),
      isPassThroughShape NFun.disableMessagePolling
          (safe.disable_message_polling native device).2 = true ∧
        (safe.disable_message_polling native device).1 = native device) ∧
    (∀ (native : NeoDevice → Bool) (device : NeoDevice),
      isPassThroughShape NFun.isMessagePollingEnabled
          (safe.is_message_polling_enabled native device).2 = true ∧
        (safe.is_message_polling_enabled native device).1 = native device) ∧
    (∀ (device : NeoDevice) (timeout : Nat) (o : VecProbeOracle NeoMessage),
      isProbeShape NFun.getMessages (safe.get_messages device timeout o).2 = true) ∧
    (∀ (native : NeoDevice → Int) (device : NeoDevice),
      isPassThroughShape NFun.getPollingMessageLimit
          (safe.get_polling_message_limit native device).2 = true ∧
        (safe.get_polling_message_limit native device).1 =
          (if native device = -1 then Except.error Error.DeviceInvalid
           else Except.ok (native device))) ∧
    (∀ (device : NeoDevice) (message_count : Nat) (o : CallOracle),
      isCallCheckShape NFun.setPollingMessageLimit
          (safe.set_polling_message_limit device message_count o).2 = true) ∧
    (∀ (device : NeoDevice) (message : NeoMessage) (o : CallOracle),
      isCallCheckShape NFun.transmit (safe.transmit device message o).2 = true) ∧
    (∀ (device : NeoDevice) (messages : List NeoMessage) (o : CallOracle),
      isCallCheckShape NFun.transmitMessages
          (safe.transmit_messages device messages o).2 = true) ∧
    (∀ (device : NeoDevice) (o : StrProbeOracle),
      isProbeShape NFun.describeDevice (safe.describe_device device o).2 = true) ∧
    (∀ (native : NeoDevice → Nat → Nat → Nat) (device : NeoDevice) (t n : Nat),
      isPassThroughShape NFun.getNetworkByNumber
          (safe.get_network_by_number native device t n).2 = true ∧
        (safe.get_network_by_number native device t n).1 = native device t n) ∧
    (∀ (device : NeoDevice) (o : StrProbeOracle),
      isProbeShape NFun.getProductName (safe.get_product_name device o).2 = true) ∧
    (∀ (device_type : Nat) (o : StrProbeOracle),
      isProbeShape NFun.getProductNameForType
          (safe.get_product_name_for_type device_type o).2 = true) ∧
    (∀ (native : NeoVersion),
      isPassThroughShape NFun.getVersion (safe.get_version native).2 = true ∧
        (safe.get_version native).1 = native) ∧
    (∀ (native : NeoDevice → Nat → Int) (device : NeoDevice) (netid : Nat),
      isPassThroughShape NFun.getBaudrate (safe.get_baudrate native device netid).2 = true ∧
        (safe.get_baudrate native device netid).1 = native device netid) ∧
    (∀ (native : NeoDevice → Nat → Int → Bool) (device : NeoDevice) (netid : Nat) (b : Int),
      isPassThroughShape NFun.setBaudrate
          (safe.set_baudrate native device netid b).2 = true ∧
        (safe.set_baudrate native device netid b).1 = native device netid b) ∧
    (∀ (native : NeoDevice → Nat → Int) (device : NeoDevice) (netid : Nat),
      isPassThroughShape NFun.getFDBaudrate
          (safe.get_fd_baudrate native device netid).2 = true ∧
        (safe.get_fd_baudrate native device netid).1 = native device netid) ∧
    (∀ (native : NeoDevice → Nat → Int → Bool) (device : NeoDevice) (netid : Nat) (b : Int),
      isPassThroughShape NFun.setFDBaudrate
          (safe.set_fd_baudrate native device netid b).2 = true ∧
        (safe.set_fd_baudrate native device netid b).1 = native device netid b) ∧
    (∀ (device : NeoDevice) (blocks : Bool),
      isPassThroughShape NFun.setWriteBlocks
          (safe.set_write_blocks device blocks).2 = true) ∧
    (∀ (o : VecProbeOracle NeoEvent),
      isProbeShape NFun.getEvents (safe.get_events o).2 = true) ∧
    (∀ (device : NeoDevice) (o : VecProbeOracle NeoEvent),
      isProbeShape NFun.getDeviceEvents (safe.get_device_events device o).2 = true) ∧
    isPassThroughShape NFun.discardAllEvents safe.discard_all_events.2 = true ∧
    (∀ (device : NeoDevice),
      isPassThroughShape NFun.discardDeviceEvents
          (safe.discard_all_device_events device).2 = true) ∧
    (∀ (new_limit : Nat),
      isPassThroughShape NFun.setEventLimit (safe.set_event_limit new_limit).2 = true) ∧
    (∀ (native : Nat),
      isPassThroughShape NFun.getEventLimit (safe.get_event_limit native).2 = true ∧
        (safe.get_event_limit native).1 = native) ∧
    (∀ (o : VecProbeOracle Nat),
      isProbeShape NFun.getSupportedDevices (safe.get_supported_devices o).2 = true) ∧
    (∀ (device : NeoDevice) (o : OutOracle Nat),
      isCallCheckShape NFun.getTimestampResolution
          (safe.get_timestamp_resolution device o).2 = true) ∧
    (∀ (device : NeoDevice) (io_type io_number : Nat) (o : OutOracle Bool),
      isCallCheckShape NFun.getDigitalIO
          (safe.get_digital_io device io_type io_number o).2 = true) ∧
    (∀ (device : NeoDevice) (io_type io_number : Nat) (value : Bool) (o : CallOracle),
      isCallCheckShape NFun.setDigitalIO
          (safe.set_digital_io device io_type io_number value o).2 = true) ∧
    (∀ (native : NeoDevice → Nat → Bool) (device : NeoDevice) (netid : Nat),
      isPassThroughShape NFun.isTerminationSupportedFor
          (safe.is_termination_supported_for native device netid).2 = true ∧
        (safe.is_termination_supported_for native device netid).1 = native device netid) ∧
    (∀ (native : NeoDevice → Nat → Bool) (device : NeoDevice) (netid : Nat),
      isPassThroughShape NFun.canTerminationBeEnabledFor
          (safe.can_termination_be_enabled_for native device netid).2 = true ∧
        (safe.can_termination_be_enabled_for native device netid).1 = native device netid) ∧
    (∀ (native : NeoDevice → Nat → Bool) (device : NeoDevice) (netid : Nat),
      isPassThroughShape NFun.isTerminationEnabledFor
          (safe.is_termination_enabled_for native device netid).2 = true ∧
        (safe.is_termination_enabled_for native device netid).1 = native device netid) ∧
    (∀ (native : NeoDevice → Nat → Bool → Bool) (device : NeoDevice) (netid : Nat)
        (enabled : Bool),
      isPassThroughShape NFun.setTerminationFor
          (safe.set_termination_for native device netid enabled).2 = true ∧
        (safe.set_termination_for native device netid enabled).1 =
          native device netid enabled) := by
  refine ⟨?_, ⟨rfl, rfl⟩, ?_, fun _ _ => ⟨rfl, rfl⟩, fun _ => ⟨rfl, rfl⟩,
    fun _ _ => ⟨rfl, rfl⟩, ?_, ?_, ?_, ?_, ?_, ?_,
    fun _ _ => ⟨rfl, rfl⟩, fun _ _ => ⟨rfl, rfl⟩, fun _ _ => ⟨rfl, rfl⟩,
    ?_, ?_, ?_, ?_, ?_, ?_,
    fun _ _ _ _ => ⟨rfl, rfl⟩, ?_, ?_,
    fun _ => ⟨rfl, rfl⟩, fun _ _ _ => ⟨rfl, rfl⟩, fun _ _ _ _ => ⟨rfl, rfl⟩,
    fun _ _ _ => ⟨rfl, rfl⟩, fun _ _ _ _ => ⟨rfl, rfl⟩, fun _ _ => rfl,
    ?_, ?_, rfl, fun _ => rfl, fun _ => rfl,
    fun _ => ⟨rfl, rfl⟩, ?_, ?_, ?_, ?_,
    fun _ _ _ => ⟨rfl, rfl⟩, fun _ _ _ => ⟨rfl, rfl⟩, fun _ _ _ => ⟨rfl, rfl⟩,
    fun _ _ _ _ => ⟨rfl, rfl⟩⟩
  · intro o
    obtain ⟨c1, le1, c2, fl, le2⟩ := o
    cases le1 with
    | some e => rfl
    | none =>
      by_cases h1 : c1 = 0 <;> by_cases h2 : c2 = 0 <;> cases le2 <;>
        simp only [safe.find_all_devices, h1, h2] <;> rfl
  · intro num o
    obtain ⟨ps, pc, fs, le, dec⟩ := o
    cases ps <;> cases fs <;> cases le <;> cases dec <;> rfl
  · intro device o
    obtain ⟨su, le⟩ := o
    cases su <;> cases le <;> rfl
  · intro device o
    obtain ⟨su, le⟩ := o
    cases su <;> cases le <;> rfl
  · intro device o
    obtain ⟨su, le⟩ := o
    cases su <;> cases le <;> rfl
  · intro device o
    obtain ⟨su, le⟩ := o
    cases su <;> cases le <;> rfl
  · intro device o
    obtain ⟨su, le⟩ := o
    cases su <;> cases le <;> rfl
  · intro device o
    obtain ⟨su, le⟩ := o
    cases su <;> cases le <;> rfl
  · intro device timeout o
    obtain ⟨ps, pc, ple, fs, fl, fle⟩ := o
    cases ps <;> cases fs <;> cases ple <;> cases fle <;> rfl
  · intro native device
    by_cases h : native device = -1 <;>
      simp only [safe.get_polling_message_limit, h] <;> exact ⟨rfl, by simp [h]⟩
  · intro device message_count o
    obtain ⟨su, le⟩ := o
    cases su <;> cases le <;> rfl
  · intro device message o
    obtain ⟨su, le⟩ := o
    cases su <;> cases le <;> rfl
  · intro device messages o
    obtain ⟨su, le⟩ := o
    cases su <;> cases le <;> rfl
  · intro device o
    obtain ⟨ps, pc, fs, le, dec⟩ := o
    cases ps <;> cases fs <;> cases le <;> cases dec <;> rfl
  · intro device o
    obtain ⟨ps, pc, fs, le, dec⟩ := o
    cases ps <;> cases fs <;> cases le <;> cases dec <;> rfl
  · intro device_type o
    obtain ⟨ps, pc, fs, le, dec⟩ := o
    cases ps <;> cases fs <;> cases le <;> cases dec <;> rfl
  · intro o
    obtain ⟨ps, pc, ple, fs, fl, fle⟩ := o
    cases ps <;> cases fs <;> cases ple <;> cases fle <;> rfl
  · intro device o
    obtain ⟨ps, pc, ple, fs, fl, fle⟩ := o
    cases ps <;> cases fs <;> cases ple <;> cases fle <;> rfl
  · intro o
    obtain ⟨ps, pc, ple, fs, fl, fle⟩ := o
    cases ps <;> cases fs <;> cases ple <;> cases fle <;> rfl
  · intro device o
    obtain ⟨su, v, le⟩ := o
    cases su <;> cases le <;> rfl
  · intro device io_type io_number o
    obtain ⟨su, v, le⟩ := o
    cases su <;> cases le <;> rfl
  · intro device io_type io_number value o
    obtain ⟨su, le⟩ := o
    cases su <;> cases le <;> rfl

theorem safe_find_all_errOcc_iff (o : FindAllOracle) (e : NeoEvent) :
    (safe.find_all_devices o).1 = Except.error (Error.ErrorOccurred e) ↔
      (o.lastError1 = some e ∨
        (o.lastError1 = none ∧ ¬o.count1 = 0 ∧ ¬o.count2 = 0 ∧ o.lastError2 = some e)) := by
  obtain ⟨c1, le1, c2, fl, le2⟩ := o
  cases le1 with
  | some e2 => simp [safe.find_all_devices]
  | none =>
    by_cases h1 : c1 = 0 <;> by_cases h2 : c2 = 0 <;> cases le2 <;>
      simp [safe.find_all_devices, h1, h2]

/-- C5: across every Result-returning wrapper of `safe.rs`, an
`ErrorOccurred` result carries exactly the event read from the last-error
slot during that same invocation (the slot read on the failing path holds
`some e` if and only if the result is `ErrorOccurred e`); the `Error`
type of the embedding has exactly the four variants of the source enum,
so every returned error is one of them, and the wrappers that never read
the slot (`free_unconnected_devices`, `get_polling_message_limit`) never
return `ErrorOccurred`. -/
theorem C5_error_payload_provenance :
    (∀ (o : FindAllOracle) (e : NeoEvent),
      (safe.find_all_devices o).1 = Except.error (Error.ErrorOccurred e) ↔
        (o.lastError1 = some e ∨
          (o.lastError1 = none ∧ ¬o.count1 = 0 ∧ ¬o.count2 = 0 ∧
            o.lastError2 = some e))) ∧
    safe.free_unconnected_devices.1 = Except.ok () ∧
    (∀ (num : Nat) (o : StrProbeOracle) (e : NeoEvent),
      (safe.serial_num_to_string num o).1 = Except.error (Error.ErrorOccurred e) ↔
        (o.probeSuccess = false ∧ o.fillSuccess = false ∧ o.lastError = some e)) ∧
    (∀ (device : NeoDevice) (o : CallOracle) (e : NeoEvent),
      (safe.open_device device o).1 = Except.error (Error.ErrorOccurred e) ↔
        (o.success = false ∧ o.lastError = some e)) ∧
    (∀ (device : NeoDevice) (o : CallOracle) (e : NeoEvent),
      (safe.close_device device o).1 = Except.error (Error.ErrorOccurred e) ↔
        (o.success = false ∧ o.lastError = some e)) ∧
    (∀ (device : NeoDevice) (o : CallOracle) (e : NeoEvent),
      (safe.is_open device o).1 = Except.error (Error.ErrorOccurred e) ↔
        (o.success = false ∧ o.lastError = some e)) ∧
    (∀ (device : NeoDevice) (o : CallOracle) (e : NeoEvent),
      (safe.go_online device o).1 = Except.error (Error.ErrorOccurred e) ↔
        (o.success = false ∧ o.lastError = some e)) ∧
    (∀ (device : NeoDevice) (o : CallOracle) (e : NeoEvent),
      (safe.go_offline device o).1 = Except.error (Error.ErrorOccurred e) ↔
        (o.success = false ∧ o.lastError = some e)) ∧
    (∀ (device : NeoDevice) (o : CallOracle) (e : NeoEvent),
      (safe.is_online device o).1 = Except.error (Error.ErrorOccurred e) ↔
        (o.success = false ∧ o.lastError = some e)) ∧
    (∀ (device : NeoDevice) (timeout : Nat) (o : VecProbeOracle NeoMessage) (e : NeoEvent),
      (safe.get_messages device timeout o).1 = Except.error (Error.ErrorOccurred e) ↔
        ((o.probeSuccess = false ∧ o.probeLastError = some e) ∨
          (o.probeSuccess = true ∧ o.fillSuccess = false ∧ o.fillLastError = some e))) ∧
    (∀ (native : NeoDevice → Int) (device : NeoDevice) (e : NeoEvent),
      ((safe.get_polling_message_limit native device).1 =
        Except.error (Error.ErrorOccurred e)) ↔ False) ∧
    (∀ (device : NeoDevice) (message_count : Nat) (o : CallOracle) (e : NeoEvent),
      (safe.set_polling_message_limit device message_count o).1 =
          Except.error (Error.ErrorOccurred e) ↔
        (o.success = false ∧ o.lastError = some e)) ∧
    (∀ (device : NeoDevice) (message : NeoMessage) (o : CallOracle) (e : NeoEvent),
      (safe.transmit device message o).1 = Except.error (Error.ErrorOccurred e) ↔
        (o.success = false ∧ o.lastError = some e)) ∧
    (∀ (device : NeoDevice) (messages : List NeoMessage) (o : CallOracle) (e : NeoEvent),
      (safe.transmit_messages device messages o).1 = Except.error (Error.ErrorOccurred e) ↔
        (o.success = false ∧ o.lastError = some e)) ∧
    (∀ (device : NeoDevice) (o : StrProbeOracle) (e : NeoEvent),
      (safe.describe_device device o).1 = Except.error (Error.ErrorOccurred e) ↔
        (o.probeSuccess = false ∧ o.fillSuccess = false ∧ o.lastError = some e)) ∧
    (∀ (device : NeoDevice) (o : StrProbeOracle) (e : NeoEvent),
      (safe.get_product_name device o).1 = Except.error (Error.ErrorOccurred e) ↔
        (o.probeSuccess = false ∧ o.fillSuccess = false ∧ o.lastError = some e)) ∧
    (∀ (device_type : Nat) (o : StrProbeOracle) (e : NeoEvent),
      (safe.get_product_name_for_type device_type o).1 =
          Except.error (Error.ErrorOccurred e) ↔
        (o.probeSuccess = false ∧ o.fillSuccess = false ∧ o.lastError = some e)) ∧
    (∀ (o : VecProbeOracle NeoEvent) (e : NeoEvent),
      (safe.get_events o).1 = Except.error (Error.ErrorOccurred e) ↔
        ((o.probeSuccess = false ∧ o.probeLastError = some e) ∨
          (o.probeSuccess = true ∧ o.fillSuccess = false ∧ o.fillLastError = some e))) ∧
    (∀ (device : NeoDevice) (o : VecProbeOracle NeoEvent) (e : NeoEvent),
      (safe.get_device_events device o).1 = Except.error (Error.ErrorOccurred e) ↔
        ((o.probeSuccess = false ∧ o.probeLastError = some e) ∨
          (o.probeSuccess = true ∧ o.fillSuccess = false ∧ o.fillLastError = some e))) ∧
    (∀ (o : VecProbeOracle Nat) (e : NeoEvent),
      (safe.get_supported_devices o).1 = Except.error (Error.ErrorOccurred e) ↔
        ((o.probeSuccess = false ∧ o.probeLastError = some e) ∨
          (o.probeSuccess = true ∧ o.fillSuccess = false ∧ o.fillLastError = some e))) ∧
    (∀ (device : NeoDevice) (o : OutOracle Nat) (e : NeoEvent),
      (safe.get_timestamp_resolution device o).1 = Except.error (Error.ErrorOccurred e) ↔
        (o.success = false ∧ o.lastError = some e)) ∧
    (∀ (device : NeoDevice) (io_type io_number : Nat) (o : OutOracle Bool) (e : NeoEvent),
      (safe.get_digital_io device io_type io_number o).1 =
          Except.error (Error.ErrorOccurred e) ↔
        (o.success = false ∧ o.lastError = some e)) ∧
    (∀ (device : NeoDevice) (io_type io_number : Nat) (value : Bool) (o : CallOracle)
        (e : NeoEvent),
      (safe.set_digital_io device io_type io_number value o).1 =
          Except.error (Error.ErrorOccurred e) ↔
        (o.success = false ∧ o.lastError = some e)) :=
  ⟨fun o e => safe_find_all_errOcc_iff o e,
    rfl,
    fun num o e => strLengthProbe_errOcc_iff _ _ _ _ _ o e,
    fun _ o e => callCheckMapUnit_errOcc_iff _ _ _ o e,
    fun _ o e => callCheckMapUnit_errOcc_iff _ _ _ o e,
    fun _ o e => callCheckMapBool_errOcc_iff _ _ _ o e,
    fun _ o e => callCheckMapUnit_errOcc_iff _ _ _ o e,
    fun _ o e => callCheckMapUnit_errOcc_iff _ _ _ o e,
    fun _ o e => callCheckTolerant_errOcc_iff _ _ o e,
    fun _ _ o e => vecLengthProbe_errOcc_iff _ _ _ _ _ o e,
    fun native device e => by
      by_cases h : native device = -1 <;> simp [safe.get_polling_message_limit, h],
    fun _ _ o e => callCheckMapUnit_errOcc_iff _ _ _ o e,
    fun _ _ o e => callCheckMapUnit_errOcc_iff _ _ _ o e,
    fun _ _ o e => callCheckMapUnit_errOcc_iff _ _ _ o e,
    fun _ o e => strLengthProbe_errOcc_iff _ _ _ _ _ o e,
    fun _ o e => strLengthProbe_errOcc_iff _ _ _ _ _ o e,
    fun _ o e => strLengthProbe_errOcc_iff _ _ _ _ _ o e,
    fun o e => vecLengthProbe_errOcc_iff _ _ _ _ _ o e,
    fun _ o e => vecLengthProbe_errOcc_iff _ _ _ _ _ o e,
    fun o e => vecLengthProbe_errOcc_iff _ _ _ _ _ o e,
    fun _ o e => outParamCheck_errOcc_iff _ _ _ o e,
    fun _ _ _ o e => outParamCheck_errOcc_iff _ _ _ o e,
    fun _ _ _ _ o e => callCheckMapUnit_errOcc_iff _ _ _ o e⟩

/-- C6: each of the twelve pass-through wrappers invokes exactly one
native function exactly once, forwards its arguments unchanged (the trace
records them), and returns exactly the native call's return value. -/
theorem C6_passthrough_forwarding :
    (∀ (native : NeoDevice → Nat → Int → Bool) (device : NeoDevice) (netid : Nat) (b : Int),
      safe.set_baudrate native device netid b =
        (native device netid b,
          [{ name := NFun.setBaudrate, buf := BufArg.noBuf,
             args := [Arg.dev device, Arg.nat netid, Arg.int b] }])) ∧
    (∀ (native : NeoDevice → Nat → Int) (device : NeoDevice) (netid : Nat),
      safe.get_baudrate native device netid =
        (native device netid,
          [{ name := NFun.getBaudrate, buf := BufArg.noBuf,
             args := [Arg.dev device, Arg.nat netid] }])) ∧
    (∀ (native : NeoDevice → Nat → Int → Bool) (device : NeoDevice) (netid : Nat) (b : Int),
      safe.set_fd_baudrate native device netid b =
        (native device netid b,
          [{ name := NFun.setFDBaudrate, buf := BufArg.noBuf,
             args := [Arg.dev device, Arg.nat netid, Arg.int b] }])) ∧
    (∀ (native : NeoDevice → Nat → Int) (device : NeoDevice) (netid : Nat),
      safe.get_fd_baudrate native device netid =
        (native device netid,
          [{ name := NFun.getFDBaudrate, buf := BufArg.noBuf,
             args := [Arg.dev device, Arg.nat netid] }])) ∧
    (∀ (native : NeoDevice → Bool) (device : NeoDevice),
      safe.enable_message_polling native device =
        (native device,
          [{ name := NFun.enableMessagePolling, buf := BufArg.noBuf,
             args := [Arg.dev device] }])) ∧
    (∀ (native : NeoDevice → Bool) (device : NeoDevice),
      safe.disable_message_polling native device =
        (native device,
          [{ name := NFun.disableMessagePolling, buf := BufArg.noBuf,
             args := [Arg.dev device] }])) ∧
    (∀ (native : NeoDevice → Bool) (device : NeoDevice),
      safe.is_message_polling_enabled native device =
        (native device,
          [{ name := NFun.isMessagePollingEnabled, buf := BufArg.noBuf,
             args := [Arg.dev device] }])) ∧
    (∀ (native : NeoDevice → Nat → Bool) (device : NeoDevice) (netid : Nat),
      safe.is_termination_supported_for native device netid =
        (native device netid,
          [{ name := NFun.isTerminationSupportedFor, buf := BufArg.noBuf,
             args := [Arg.dev device, Arg.nat netid] }])) ∧
    (∀ (native : NeoDevice → Nat → Bool) (device : NeoDevice) (netid : Nat),
      safe.can_termination_be_enabled_for native device netid =
        (native device netid,
          [{ name := NFun.canTerminationBeEnabledFor, buf := BufArg.noBuf,
             args := [Arg.dev device, Arg.nat netid] }])) ∧
    (∀ (native : NeoDevice → Nat → Bool) (device : NeoDevice) (netid : Nat),
      safe.is_termination_enabled_for native device netid =
        (native device netid,
          [{ name := NFun.isTerminationEnabledFor, buf := BufArg.noBuf,
             args := [Arg.dev device, Arg.nat netid] }])) ∧
    (∀ (native : NeoDevice → Nat → Bool → Bool) (device : NeoDevice) (netid : Nat)
        (enabled : Bool),
      safe.set_termination_for native device netid enabled =
        (native device netid enabled,
          [{ name := NFun.setTerminationFor, buf := BufArg.noBuf,
             args := [Arg.dev device, Arg.nat netid, Arg.bool enabled] }])) ∧
    (∀ (native : NeoDevice → Nat → Nat → Nat) (device : NeoDevice) (t n : Nat),
      safe.get_network_by_number native device t n =
        (native device t n,
          [{ name := NFun.getNetworkByNumber, buf := BufArg.noBuf,
             args := [Arg.dev device, Arg.nat t, Arg.nat n] }])) :=
  ⟨fun _ _ _ _ => rfl, fun _ _ _ => rfl, fun _ _ _ _ => rfl, fun _ _ _ => rfl,
    fun _ _ => rfl, fun _ _ => rfl, fun _ _ => rfl,
    fun _ _ _ => rfl, fun _ _ _ => rfl, fun _ _ _ => rfl, fun _ _ _ _ => rfl,
    fun _ _ _ _ => rfl⟩

/-- C7: across every public wrapper of `safe.rs`, each native function is
invoked at most twice within one invocation; when a native function is
invoked twice, the first invocation is the null-buffer length/count probe
and the second the allocated-buffer fill; and after a native call whose
outcome the wrapper treats as failure the wrapper returns without invoking
that native function again (the invocation counts below are exactly one
whenever the wrapper takes the probe-failure path, so no native operation
is ever re-invoked after a failure; a false return of a string wrapper's
probe is the documented success of the length query in the source). -/
theorem C7_no_reinvocation_after_failure :
    (∀ (o : FindAllOracle),
      atMostTwiceB (safe.find_all_devices o).2 = true ∧
      callCount NFun.findAllDevices (safe.find_all_devices o).2 =
        (match o.lastError1 with
         | some _ => 1
         | none => if o.count1 = 0 then 1 else 2) ∧
      bufsOf NFun.findAllDevices (safe.find_all_devices o).2 =
        (match o.lastError1 with
         | some _ => [BufArg.nullPtr]
         | none =>
           if o.count1 = 0 then [BufArg.nullPtr]
           else [BufArg.nullPtr, BufArg.alloc o.count1])) ∧
    (atMostTwiceB safe.free_unconnected_devices.2 = true ∧
      callCount NFun.freeUnconnectedDevices safe.free_unconnected_devices.2 = 1) ∧
    (∀ (num : Nat) (o : StrProbeOracle),
      atMostTwiceB (safe.serial_num_to_string num o).2 = true ∧
      callCount NFun.serialNumToString (safe.serial_num_to_string num o).2 =
        (if o.probeSuccess then 1 else 2) ∧
      bufsOf NFun.serialNumToString (safe.serial_num_to_string num o).2 =
        (if o.probeSuccess then [BufArg.nullPtr]
         else [BufArg.nullPtr, BufArg.alloc (o.probeCount + 1)])) ∧
    (∀ (native : String → Nat) (serial_str : String),
      atMostTwiceB (safe.serial_string_to_num native serial_str).2 = true ∧
      callCount NFun.serialStringToNum (safe.serial_string_to_num native serial_str).2 = 1) ∧
    (∀ (slot : Option NeoEvent),
      atMostTwiceB (safe.get_last_error slot).2 = true ∧
      callCount NFun.getLastError (safe.get_last_error slot).2 = 1) ∧
    (∀ (native : NeoDevice → Bool) (device : NeoDevice),
      atMostTwiceB (safe.is_valid_neodevice native device).2 = true ∧
      callCount NFun.isValidNeoDevice (safe.is_valid_neodevice native device).2 = 1) ∧
    (∀ (device : NeoDevice) (o : CallOracle),
      atMostTwiceB (safe.open_device device o).2 = true ∧
      callCount NFun.openDevice (safe.open_device device o).2 = 1) ∧
    (∀ (device : NeoDevice) (o : CallOracle),
      atMostTwiceB (safe.close_device device o).2 = true ∧
      callCount NFun.closeDevice (safe.close_device device o).2 = 1) ∧
    (∀ (device : NeoDevice) (o : CallOracle),
      atMostTwiceB (safe.is_open device o).2 = true ∧
      callCount NFun.isOpen (safe.is_open device o).2 = 1) ∧
    (∀ (device : NeoDevice) (o : CallOracle),
      atMostTwiceB (safe.go_online device o).2 = true ∧
      callCount NFun.goOnline (safe.go_online device o).2 = 1) ∧
    (∀ (device : NeoDevice) (o : CallOracle),
      atMostTwiceB (safe.go_offline device o).2 = true ∧
      callCount NFun.goOffline (safe.go_offline device o).2 = 1) ∧
    (∀ (device : NeoDevice) (o : CallOracle),
      atMostTwiceB (safe.is_online device o).2 = true ∧
      callCount NFun.isOnline (safe.is_online device o).2 = 1) ∧
    (∀ (native : NeoDevice → Bool) (device : NeoDevice),
      atMostTwiceB (safe.enable_message_polling native device).2 = true ∧
      callCount NFun.enableMessagePolling (safe.enable_message_polling native device).2 = 1) ∧
    (∀ (native : NeoDevice → Bool) (device : NeoDevice),
      atMostTwiceB (safe.disable_message_polling native device).2 = true ∧
      callCount NFun.disableMessagePolling
        (safe.disable_message_polling native device).2 = 1) ∧
    (∀ (native : NeoDevice → Bool) (device : NeoDevice),
      atMostTwiceB (safe.is_message_polling_enabled native device).2 = true ∧
      callCount NFun.isMessagePollingEnabled
        (safe.is_message_polling_enabled native device).2 = 1) ∧
    (∀ (device : NeoDevice) (timeout : Nat) (o : VecProbeOracle NeoMessage),
      atMostTwiceB (safe.get_messages device timeout o).2 = true ∧
      callCount NFun.getMessages (safe.get_messages device timeout o).2 =
        (if o.probeSuccess then 2 else 1) ∧
      bufsOf NFun.getMessages (safe.get_messages device timeout o).2 =
        (if o.probeSuccess then [BufArg.nullPtr, BufArg.alloc o.probeCount]
         else [BufArg.nullPtr])) ∧
    (∀ (native : NeoDevice → Int) (device : NeoDevice),
      atMostTwiceB (safe.get_polling_message_limit native device).2 = true ∧
      callCount NFun.getPollingMessageLimit
        (safe.get_polling_message_limit native device).2 = 1) ∧
    (∀ (device : NeoDevice) (message_count : Nat) (o : CallOracle),
      atMostTwiceB (safe.set_polling_message_limit device message_count o).2 = true ∧
      callCount NFun.setPollingMessageLimit
        (safe.set_polling_message_limit device message_count o).2 = 1) ∧
    (∀ (device : NeoDevice) (message : NeoMessage) (o : CallOracle),
      atMostTwiceB (safe.transmit device message o).2 = true ∧
      callCount NFun.transmit (safe.transmit device message o).2 = 1) ∧
    (∀ (device : NeoDevice) (messages : List NeoMessage) (o : CallOracle),
      atMostTwiceB (safe.transmit_messages device messages o).2 = true ∧
      callCount NFun.transmitMessages (safe.transmit_messages device messages o).2 = 1) ∧
    (∀ (device : NeoDevice) (o : StrProbeOracle),
      atMostTwiceB (safe.describe_device device o).2 = true ∧
      callCount NFun.describeDevice (safe.describe_device device o).2 =
        (if o.probeSuccess then 1 else 2) ∧
      bufsOf NFun.describeDevice (safe.describe_device device o).2 =
        (if o.probeSuccess then [BufArg.nullPtr]
         else [BufArg.nullPtr, BufArg.alloc (o.probeCount + 1)])) ∧
    (∀ (native : NeoDevice → Nat → Nat → Nat) (device : NeoDevice) (t n : Nat),
      atMostTwiceB (safe.get_network_by_number native device t n).2 = true ∧
      callCount NFun.getNetworkByNumber (safe.get_network_by_number native device t n).2 = 1) ∧
    (∀ (device : NeoDevice) (o : StrProbeOracle),
      atMostTwiceB (safe.get_product_name device o).2 = true ∧
      callCount NFun.getProductName (safe.get_product_name device o).2 =
        (if o.probeSuccess then 1 else 2) ∧
      bufsOf NFun.getProductName (safe.get_product_name device o).2 =
        (if o.probeSuccess then [BufArg.nullPtr]
         else [BufArg.nullPtr, BufArg.alloc (o.probeCount + 1)])) ∧
    (∀ (device_type : Nat) (o : StrProbeOracle),
      atMostTwiceB (safe.get_product_name_for_type device_type o).2 = true ∧
      callCount NFun.getProductNameForType
        (safe.get_product_name_for_type device_type o).2 =
        (if o.probeSuccess then 1 else 2) ∧
      bufsOf NFun.getProductNameForType (safe.get_product_name_for_type device_type o).2 =
        (if o.probeSuccess then [BufArg.nullPtr]
         else [BufArg.nullPtr, BufArg.alloc (o.probeCount + 1)])) ∧
    (∀ (native : NeoVersion),
      atMostTwiceB (safe.get_version native).2 = true ∧
      callCount NFun.getVersion (safe.get_version native).2 = 1) ∧
    (∀ (native : NeoDevice → Nat → Int) (device : NeoDevice) (netid : Nat),
      atMostTwiceB (safe.get_baudrate native device netid).2 = true ∧
      callCount NFun.getBaudrate (safe.get_baudrate native device netid).2 = 1) ∧
    (∀ (native : NeoDevice → Nat → Int → Bool) (device : NeoDevice) (netid : Nat) (b : Int),
      atMostTwiceB (safe.set_baudrate native device netid b).2 = true ∧
      callCount NFun.setBaudrate (safe.set_baudrate native device netid b).2 = 1) ∧
    (∀ (native : NeoDevice → Nat → Int) (device : NeoDevice) (netid : Nat),
      atMostTwiceB (safe.get_fd_baudrate native device netid).2 = true ∧
      callCount NFun.getFDBaudrate (safe.get_fd_baudrate native device netid).2 = 1) ∧
    (∀ (native : NeoDevice → Nat → Int → Bool) (device : NeoDevice) (netid : Nat) (b : Int),
      atMostTwiceB (safe.set_fd_baudrate native device netid b).2 = true ∧
      callCount NFun.setFDBaudrate (safe.set_fd_baudrate native device netid b).2 = 1) ∧
    (∀ (device : NeoDevice) (blocks : Bool),
      atMostTwiceB (safe.set_write_blocks device blocks).2 = true ∧
      callCount NFun.setWriteBlocks (safe.set_write_blocks device blocks).2 = 1) ∧
    (∀ (o : VecProbeOracle NeoEvent),
      atMostTwiceB (safe.get_events o).2 = true ∧
      callCount NFun.getEvents (safe.get_events o).2 = (if o.probeSuccess then 2 else 1) ∧
      bufsOf NFun.getEvents (safe.get_events o).2 =
        (if o.probeSuccess then [BufArg.nullPtr, BufArg.alloc o.probeCount]
         else [BufArg.nullPtr])) ∧
    (∀ (device : NeoDevice) (o : VecProbeOracle NeoEvent),
      atMostTwiceB (safe.get_device_events device o).2 = true ∧
      callCount NFun.getDeviceEvents (safe.get_device_events device o).2 =
        (if o.probeSuccess then 2 else 1) ∧
      bufsOf NFun.getDeviceEvents (safe.get_device_events device o).2 =
        (if o.probeSuccess then [BufArg.nullPtr, BufArg.alloc o.probeCount]
         else [BufArg.nullPtr])) ∧
    (atMostTwiceB safe.discard_all_events.2 = true ∧
      callCount NFun.discardAllEvents safe.discard_all_events.2 = 1) ∧
    (∀ (device : NeoDevice),
      atMostTwiceB (safe.discard_all_device_events device).2 = true ∧
      callCount NFun.discardDeviceEvents (safe.discard_all_device_events device).2 = 1) ∧
    (∀ (new_limit : Nat),
      atMostTwiceB (safe.set_event_limit new_limit).2 = true ∧
      callCount NFun.setEventLimit (safe.set_event_limit new_limit).2 = 1) ∧
    (∀ (native : Nat),
      atMostTwiceB (safe.get_event_limit native).2 = true ∧
      callCount NFun.getEventLimit (safe.get_event_limit native).2 = 1) ∧
    (∀ (o : VecProbeOracle Nat),
      atMostTwiceB (safe.get_supported_devices o).2 = true ∧
      callCount NFun.getSupportedDevices (safe.get_supported_devices o).2 =
        (if o.probeSuccess then 2 else 1) ∧
      bufsOf NFun.getSupportedDevices (safe.get_supported_devices o).2 =
        (if o.probeSuccess then [BufArg.nullPtr, BufArg.alloc o.probeCount]
         else [BufArg.nullPtr])) ∧
    (∀ (device : NeoDevice) (o : OutOracle Nat),
      atMostTwiceB (safe.get_timestamp_resolution device o).2 = true ∧
      callCount NFun.getTimestampResolution (safe.get_timestamp_resolution device o).2 = 1) ∧
    (∀ (device : NeoDevice) (io_type io_number : Nat) (o : OutOracle Bool),
      atMostTwiceB (safe.get_digital_io device io_type io_number o).2 = true ∧
      callCount NFun.getDigitalIO (safe.get_digital_io device io_type io_number o).2 = 1) ∧
    (∀ (device : NeoDevice) (io_type io_number : Nat) (value : Bool) (o : CallOracle),
      atMostTwiceB (safe.set_digital_io device io_type io_number value o).2 = true ∧
      callCount NFun.setDigitalIO (safe.set_digital_io device io_type io_number value o).2 = 1) ∧
    (∀ (native : NeoDevice → Nat → Bool) (device : NeoDevice) (netid : Nat),
      atMostTwiceB (safe.is_termination_supported_for native device netid).2 = true ∧
      callCount NFun.isTerminationSupportedFor
        (safe.is_termination_supported_for native device netid).2 = 1) ∧
    (∀ (native : NeoDevice → Nat → Bool) (device : NeoDevice) (netid : Nat),
      atMostTwiceB (safe.can_termination_be_enabled_for native device netid).2 = true ∧
      callCount NFun.canTerminationBeEnabledFor
        (safe.can_termination_be_enabled_for native device netid).2 = 1) ∧
    (∀ (native : NeoDevice → Nat → Bool) (device : NeoDevice) (netid : Nat),
      atMostTwiceB (safe.is_termination_enabled_for native device netid).2 = true ∧
      callCount NFun.isTerminationEnabledFor
        (safe.is_termination_enabled_for native device netid).2 = 1) ∧
    (∀ (native : NeoDevice → Nat → Bool → Bool) (device : NeoDevice) (netid : Nat)
        (enabled : Bool),
      atMostTwiceB (safe.set_termination_for native device netid enabled).2 = true ∧
      callCount NFun.setTerminationFor
        (safe.set_termination_for native device netid enabled).2 = 1) := by
  refine ⟨?_, ⟨rfl, rfl⟩, ?_, fun _ _ => ⟨rfl, rfl⟩, fun _ => ⟨rfl, rfl⟩,
    fun _ _ => ⟨rfl, rfl⟩, ?_, ?_, ?_, ?_, ?_, ?_,
    fun _ _ => ⟨rfl, rfl⟩, fun _ _ => ⟨rfl, rfl⟩, fun _ _ => ⟨rfl, rfl⟩,
    ?_, ?_, ?_, ?_, ?_, ?_,
    fun _ _ _ _ => ⟨rfl, rfl⟩, ?_, ?_,
    fun _ => ⟨rfl, rfl⟩, fun _ _ _ => ⟨rfl, rfl⟩, fun _ _ _ _ => ⟨rfl, rfl⟩,
    fun _ _ _ => ⟨rfl, rfl⟩, fun _ _ _ _ => ⟨rfl, rfl⟩, fun _ _ => ⟨rfl, rfl⟩,
    ?_, ?_, ⟨rfl, rfl⟩, fun _ => ⟨rfl, rfl⟩, fun _ => ⟨rfl, rfl⟩,
    fun _ => ⟨rfl, rfl⟩, ?_, ?_, ?_, ?_,
    fun _ _ _ => ⟨rfl, rfl⟩, fun _ _ _ => ⟨rfl, rfl⟩, fun _ _ _ => ⟨rfl, rfl⟩,
    fun _ _ _ _ => ⟨rfl, rfl⟩⟩
  · intro o
    obtain ⟨c1, le1, c2, fl, le2⟩ := o
    cases le1 with
    | some e => exact ⟨rfl, rfl, rfl⟩
    | none =>
      by_cases h1 : c1 = 0 <;> by_cases h2 : c2 = 0 <;> cases le2 <;>
        simp only [safe.find_all_devices, h1, h2] <;> exact ⟨rfl, rfl, rfl⟩
  · intro num o
    obtain ⟨ps, pc, fs, le, dec⟩ := o
    cases ps <;> cases fs <;> cases le <;> cases dec <;> exact ⟨rfl, rfl, rfl⟩
  · intro device o
    obtain ⟨su, le⟩ := o
    cases su <;> cases le <;> exact ⟨rfl, rfl⟩
  · intro device o
    obtain ⟨su, le⟩ := o
    cases su <;> cases le <;> exact ⟨rfl, rfl⟩
  · intro device o
    obtain ⟨su, le⟩ := o
    cases su <;> cases le <;> exact ⟨rfl, rfl⟩
  · intro device o
    obtain ⟨su, le⟩ := o
    cases su <;> cases le <;> exact ⟨rfl, rfl⟩
  · intro device o
    obtain ⟨su, le⟩ := o
    cases su <;> cases le <;> exact ⟨rfl, rfl⟩
  · intro device o
    obtain ⟨su, le⟩ := o
    cases su <;> cases le <;> exact ⟨rfl, rfl⟩
  · intro device timeout o
    obtain ⟨ps, pc, ple, fs, fl, fle⟩ := o
    cases ps <;> cases fs <;> cases ple <;> cases fle <;> exact ⟨rfl, rfl, rfl⟩
  · intro native device
    by_cases h : native device = -1 <;>
      simp only [safe.get_polling_message_limit, h] <;> exact ⟨rfl, rfl⟩
  · intro device message_count o
    obtain ⟨su, le⟩ := o
    cases su <;> cases le <;> exact ⟨rfl, rfl⟩
  · intro device message o
    obtain ⟨su, le⟩ := o
    cases su <;> cases le <;> exact ⟨rfl, rfl⟩
  · intro device messages o
    obtain ⟨su, le⟩ := o
    cases su <;> cases le <;> exact ⟨rfl, rfl⟩
  · intro device o
    obtain ⟨ps, pc, fs, le, dec⟩ := o
    cases ps <;> cases fs <;> cases le <;> cases dec <;> exact ⟨rfl, rfl, rfl⟩
  · intro device o
    obtain ⟨ps, pc, fs, le, dec⟩ := o
    cases ps <;> cases fs <;> cases le <;> cases dec <;> exact ⟨rfl, rfl, rfl⟩
  · intro device_type o
    obtain ⟨ps, pc, fs, le, dec⟩ := o
    cases ps <;> cases fs <;> cases le <;> cases dec <;> exact ⟨rfl, rfl, rfl⟩
  · intro o
    obtain ⟨ps, pc, ple, fs, fl, fle⟩ := o
    cases ps <;> cases fs <;> cases ple <;> cases fle <;> exact ⟨rfl, rfl, rfl⟩
  · intro device o
    obtain ⟨ps, pc, ple, fs, fl, fle⟩ := o
    cases ps <;> cases fs <;> cases ple <;> cases fle <;> exact ⟨rfl, rfl, rfl⟩
  · intro o
    obtain ⟨ps, pc, ple, fs, fl, fle⟩ := o
    cases ps <;> cases fs <;> cases ple <;> cases fle <;> exact ⟨rfl, rfl, rfl⟩
  · intro device o
    obtain ⟨su, v, le⟩ := o
    cases su <;> cases le <;> exact ⟨rfl, rfl⟩
  · intro device io_type io_number o
    obtain ⟨su, v, le⟩ := o
    cases su <;> cases le <;> exact ⟨rfl, rfl⟩
  · intro device io_type io_number value o
    obtain ⟨su, le⟩ := o
    cases su <;> cases le <;> exact ⟨rfl, rfl⟩

end Libicsneo
